import Mathlib

/-!
Verification development for the WhatsApp football event analyzer.

The repository extracts structured football-event records from German
WhatsApp chat exports.  The Python sources are embedded shallowly:

* pure string/arithmetic helpers are translated directly;
* the calls into Python's `re` module are modelled by passing the match
  results of each (fixed, named) pattern as explicit inputs (a
  `RegexMatches` record per message); everything the code does *after*
  a `re.search`/`re.match` call — group selection, `int()` conversions,
  range gates, string assembly, fall-through to the following pattern —
  is translated faithfully from the source;
* the line-format patterns used by the chat parsers are simple enough
  to be implemented directly as character-list scanners, so the
  message-segmentation stage is fully executable on concrete exports;
* Python `float` confidence arithmetic is modelled over `ℚ`;
* Python `datetime` values are modelled with second granularity
  (the code never constructs sub-second timestamps).
-/

set_option maxHeartbeats 1000000
set_option maxRecDepth 4000

/-- Numeric value of a decimal digit string: mirrors Python `int(s)` on the
digit-only strings produced by the `\d…` regex groups of the source. -/
def strNat (s : String) : Nat :=
  s.toList.foldl (fun a c => a * 10 + (c.toNat - 48)) 0

/-- Mirror of Python `str.isdigit()` on the strings that occur here. -/
def isDigitStr (s : String) : Bool :=
  s ≠ "" && s.toList.all (fun c => c.isDigit)

/-- Case folding for ASCII letters and the German umlauts, mirroring what
Python `str.lower()` does on the alphabet used by the patterns. -/
def germanLowerChar (c : Char) : Char :=
  if 'A' ≤ c ∧ c ≤ 'Z' then Char.ofNat (c.toNat + 32)
  else if c = 'Ä' then 'ä'
  else if c = 'Ö' then 'ö'
  else if c = 'Ü' then 'ü'
  else c

def germanLower (s : String) : String := ⟨s.toList.map germanLowerChar⟩

/-- Substring occurrence on character lists (needle first). -/
def containsSub (needle : List Char) : List Char → Bool
  | [] => needle.isPrefixOf []
  | c :: t => needle.isPrefixOf (c :: t) || containsSub needle t

/-- `ctns hay needle` mirrors Python's `needle in hay` substring test. -/
def ctns (hay needle : String) : Bool :=
  containsSub needle.toList hay.toList

theorem dropWhileLenLe (p : Char → Bool) (l : List Char) :
    (l.dropWhile p).length ≤ l.length := by
  induction l with
  | nil => simp [List.dropWhile]
  | cons a t ih =>
    simp only [List.dropWhile]
    split
    · exact le_trans ih (Nat.le_succ _)
    · simp

/-- Collapse whitespace runs to a single space, mirroring
`re.sub(r'\s+', ' ', s)`.  The boolean records whether the previous
character was part of a whitespace run. -/
def collapseWsGo : Bool → List Char → List Char
  | _, [] => []
  | inWs, c :: rest =>
    if c.isWhitespace then
      if inWs then collapseWsGo true rest else ' ' :: collapseWsGo true rest
    else c :: collapseWsGo false rest

def collapseWs (s : String) : String := ⟨collapseWsGo false s.toList⟩

/-- Python `s[-n:]`. -/
def lastChars (n : Nat) (s : String) : String :=
  ⟨(s.toList.reverse.take n).reverse⟩

/-- Python `str.strip()` (both-ends whitespace strip), on the character
list so that it evaluates by reduction. -/
def String.pyStrip (s : String) : String :=
  ⟨((s.toList.dropWhile Char.isWhitespace).reverse.dropWhile Char.isWhitespace).reverse⟩

def splitOnCharGo (sep : Char) : List Char → List (List Char)
  | [] => [[]]
  | c :: t =>
    if c = sep then [] :: splitOnCharGo sep t
    else
      match splitOnCharGo sep t with
      | h :: r => (c :: h) :: r
      | [] => [[c]]

/-- Python `str.split(sep)` for a one-character separator. -/
def String.pySplit (s : String) (sep : Char) : List String :=
  (splitOnCharGo sep s.toList).map (fun l => ⟨l⟩)

def replaceListGo (pat rep : List Char) : Nat → List Char → List Char
  | _, [] => []
  | 0, l => l
  | fuel + 1, l =>
    if pat.isPrefixOf l ∧ pat ≠ [] then
      rep ++ replaceListGo pat rep fuel (l.drop pat.length)
    else
      match l with
      | [] => []
      | c :: t => c :: replaceListGo pat rep fuel t

/-- Python `str.replace` (all non-overlapping occurrences, left to
right), on character lists. -/
def String.pyReplace (s pat rep : String) : String :=
  ⟨replaceListGo pat.toList rep.toList s.toList.length s.toList⟩

-- ===========================================================================
-- Dates and timestamps (models of Python `datetime.date` / `datetime.datetime`)
-- ===========================================================================

structure Date where
  year : Nat
  month : Nat
  day : Nat
deriving DecidableEq

structure DateTime where
  year : Nat
  month : Nat
  day : Nat
  hour : Nat
  minute : Nat
  second : Nat
deriving DecidableEq

def isLeapYear (y : Nat) : Bool :=
  y % 4 == 0 && (y % 100 != 0 || y % 400 == 0)

def daysInMonth (y m : Nat) : Nat :=
  if m = 2 then (if isLeapYear y then 29 else 28)
  else if m = 4 ∨ m = 6 ∨ m = 9 ∨ m = 11 then 30
  else 31

/-- The validity condition `datetime.date(y, m, d)` enforces (raising
`ValueError` otherwise). -/
def validDate (y m d : Nat) : Bool :=
  decide (1 ≤ y ∧ y ≤ 9999 ∧ 1 ≤ m ∧ m ≤ 12 ∧ 1 ≤ d ∧ d ≤ daysInMonth y m)

def validHM (h mi : Nat) : Bool := decide (h ≤ 23 ∧ mi ≤ 59)

/-- Chronological (lexicographic) strict order on dates, as Python's
`date.__lt__`. -/
def dateLtB (a b : Date) : Bool :=
  decide (a.year < b.year ∨ (a.year = b.year ∧
    (a.month < b.month ∨ (a.month = b.month ∧ a.day < b.day))))

def dateLeB (a b : Date) : Bool := dateLtB a b || a == b

/-- `datetime.date.max` = 9999-12-31. -/
def dateMax : Date := ⟨9999, 12, 31⟩

-- CPython's `date.toordinal` formula (days since 0001-01-00).
def daysBeforeYear (y : Nat) : Nat :=
  365 * (y - 1) + (y - 1) / 4 - (y - 1) / 100 + (y - 1) / 400

def daysBeforeMonth (y m : Nat) : Nat :=
  (List.range (m - 1)).foldl (fun a i => a + daysInMonth y (i + 1)) 0

def toOrdinal (d : Date) : Nat :=
  daysBeforeYear d.year + daysBeforeMonth d.year d.month + d.day

/-- Python `date.weekday()`: Monday = 0; 0001-01-01 (ordinal 1) is a Monday. -/
def dateWeekday (d : Date) : Nat := (toOrdinal d + 6) % 7

/-- The next calendar day (used to model adding a small `timedelta`). -/
def succDay (d : Date) : Date :=
  if d.day < daysInMonth d.year d.month then ⟨d.year, d.month, d.day + 1⟩
  else if d.month < 12 then ⟨d.year, d.month + 1, 1⟩
  else ⟨d.year + 1, 1, 1⟩

def addDays (d : Date) (n : Nat) : Date := succDay^[n] d

-- ===========================================================================
-- ISO-8601 rendering and parsing (`date.isoformat` / `date.fromisoformat`,
-- `datetime.isoformat` / `datetime.fromisoformat`)
-- ===========================================================================

def digitChar (n : Nat) : Char := Char.ofNat (48 + n)

def digitVal (c : Char) : Nat := c.toNat - 48

def pad2 (n : Nat) : List Char := [digitChar (n / 10 % 10), digitChar (n % 10)]

def pad4 (n : Nat) : List Char :=
  [digitChar (n / 1000 % 10), digitChar (n / 100 % 10),
   digitChar (n / 10 % 10), digitChar (n % 10)]

/-- `date.isoformat()`: `YYYY-MM-DD` (zero padded; Python years are ≤ 9999). -/
def isoDate (d : Date) : String :=
  ⟨pad4 d.year ++ '-' :: (pad2 d.month ++ '-' :: pad2 d.day)⟩

/-- `datetime.isoformat()` for whole-second timestamps:
`YYYY-MM-DDTHH:MM:SS`. -/
def isoDateTime (t : DateTime) : String :=
  ⟨pad4 t.year ++ '-' :: (pad2 t.month ++ '-' :: (pad2 t.day ++
    'T' :: (pad2 t.hour ++ ':' :: (pad2 t.minute ++ ':' :: pad2 t.second))))⟩

/-- `date.fromisoformat` on the canonical `YYYY-MM-DD` layout (raising,
i.e. `none`, on anything malformed or calendar-invalid). -/
def parseIsoDate (s : String) : Option Date :=
  match s.toList with
  | [y1, y2, y3, y4, s1, m1, m2, s2, d1, d2] =>
    if s1 = '-' ∧ s2 = '-' ∧ y1.isDigit ∧ y2.isDigit ∧ y3.isDigit ∧ y4.isDigit ∧
        m1.isDigit ∧ m2.isDigit ∧ d1.isDigit ∧ d2.isDigit then
      let y := digitVal y1 * 1000 + digitVal y2 * 100 + digitVal y3 * 10 + digitVal y4
      let m := digitVal m1 * 10 + digitVal m2
      let d := digitVal d1 * 10 + digitVal d2
      if validDate y m d then some ⟨y, m, d⟩ else none
    else none
  | _ => none

/-- `datetime.fromisoformat` on the canonical `YYYY-MM-DDTHH:MM:SS` layout. -/
def parseIsoDateTime (s : String) : Option DateTime :=
  match s.toList with
  | [y1, y2, y3, y4, s1, m1, m2, s2, d1, d2, s3, h1, h2, s4, n1, n2, s5, c1, c2] =>
    if s1 = '-' ∧ s2 = '-' ∧ s3 = 'T' ∧ s4 = ':' ∧ s5 = ':' ∧
        y1.isDigit ∧ y2.isDigit ∧ y3.isDigit ∧ y4.isDigit ∧
        m1.isDigit ∧ m2.isDigit ∧ d1.isDigit ∧ d2.isDigit ∧
        h1.isDigit ∧ h2.isDigit ∧ n1.isDigit ∧ n2.isDigit ∧
        c1.isDigit ∧ c2.isDigit then
      let y := digitVal y1 * 1000 + digitVal y2 * 100 + digitVal y3 * 10 + digitVal y4
      let m := digitVal m1 * 10 + digitVal m2
      let d := digitVal d1 * 10 + digitVal d2
      let h := digitVal h1 * 10 + digitVal h2
      let n := digitVal n1 * 10 + digitVal n2
      let c := digitVal c1 * 10 + digitVal c2
      if validDate y m d ∧ h ≤ 23 ∧ n ≤ 59 ∧ c ≤ 59 then
        some ⟨y, m, d, h, n, c⟩
      else none
    else none
  | _ => none

theorem digitChar_isDigit {n : Nat} (h : n < 10) : (digitChar n).isDigit = true := by
  interval_cases n <;> decide

theorem digitVal_digitChar {n : Nat} (h : n < 10) : digitVal (digitChar n) = n := by
  interval_cases n <;> decide

theorem digitsRecomb4 (y : Nat) (h : y < 10000) :
    y / 1000 % 10 * 1000 + y / 100 % 10 * 100 + y / 10 % 10 * 10 + y % 10 = y := by
  omega

theorem digitsRecomb2 (n : Nat) (h : n < 100) : n / 10 % 10 * 10 + n % 10 = n := by
  omega

theorem parseIsoDate_isoDate (y m d : Nat) (h : validDate y m d = true) :
    parseIsoDate (isoDate ⟨y, m, d⟩) = some ⟨y, m, d⟩ := by
  have hb := of_decide_eq_true h
  obtain ⟨hy1, hy2, hm1, hm2, hd1, hd2⟩ := hb
  have hylt : y < 10000 := by omega
  have hmlt : m < 100 := by omega
  have hdlt : d ≤ daysInMonth y m := hd2
  have hdlt' : d < 100 := by
    have : daysInMonth y m ≤ 31 := by
      unfold daysInMonth
      split_ifs <;> omega
    omega
  have e1 : (y / 1000 % 10) < 10 := Nat.mod_lt _ (by norm_num)
  have e2 : (y / 100 % 10) < 10 := Nat.mod_lt _ (by norm_num)
  have e3 : (y / 10 % 10) < 10 := Nat.mod_lt _ (by norm_num)
  have e4 : (y % 10) < 10 := Nat.mod_lt _ (by norm_num)
  have e5 : (m / 10 % 10) < 10 := Nat.mod_lt _ (by norm_num)
  have e6 : (m % 10) < 10 := Nat.mod_lt _ (by norm_num)
  have e7 : (d / 10 % 10) < 10 := Nat.mod_lt _ (by norm_num)
  have e8 : (d % 10) < 10 := Nat.mod_lt _ (by norm_num)
  show parseIsoDate ⟨pad4 y ++ '-' :: (pad2 m ++ '-' :: pad2 d)⟩ = some ⟨y, m, d⟩
  simp only [parseIsoDate, pad4, pad2, String.toList, List.cons_append, List.nil_append]
  simp only [digitChar_isDigit e1, digitChar_isDigit e2, digitChar_isDigit e3,
    digitChar_isDigit e4, digitChar_isDigit e5, digitChar_isDigit e6,
    digitChar_isDigit e7, digitChar_isDigit e8,
    digitVal_digitChar e1, digitVal_digitChar e2, digitVal_digitChar e3,
    digitVal_digitChar e4, digitVal_digitChar e5, digitVal_digitChar e6,
    digitVal_digitChar e7, digitVal_digitChar e8]
  have hy := digitsRecomb4 y hylt
  have hm := digitsRecomb2 m hmlt
  have hd := digitsRecomb2 d hdlt'
  simp [hy, hm, hd, h]

theorem parseIsoDateTime_isoDateTime (y m d hr mi sc : Nat)
    (h : validDate y m d = true)
    (hh : hr ≤ 23) (hn : mi ≤ 59) (hc : sc ≤ 59) :
    parseIsoDateTime (isoDateTime ⟨y, m, d, hr, mi, sc⟩) = some ⟨y, m, d, hr, mi, sc⟩ := by
  have hb := of_decide_eq_true h
  obtain ⟨hy1, hy2, hm1, hm2, hd1, hd2⟩ := hb
  have hylt : y < 10000 := by omega
  have e1 : (y / 1000 % 10) < 10 := Nat.mod_lt _ (by norm_num)
  have e2 : (y / 100 % 10) < 10 := Nat.mod_lt _ (by norm_num)
  have e3 : (y / 10 % 10) < 10 := Nat.mod_lt _ (by norm_num)
  have e4 : (y % 10) < 10 := Nat.mod_lt _ (by norm_num)
  have e5 : (m / 10 % 10) < 10 := Nat.mod_lt _ (by norm_num)
  have e6 : (m % 10) < 10 := Nat.mod_lt _ (by norm_num)
  have e7 : (d / 10 % 10) < 10 := Nat.mod_lt _ (by norm_num)
  have e8 : (d % 10) < 10 := Nat.mod_lt _ (by norm_num)
  have e9 : (hr / 10 % 10) < 10 := Nat.mod_lt _ (by norm_num)
  have e10 : (hr % 10) < 10 := Nat.mod_lt _ (by norm_num)
  have e11 : (mi / 10 % 10) < 10 := Nat.mod_lt _ (by norm_num)
  have e12 : (mi % 10) < 10 := Nat.mod_lt _ (by norm_num)
  have e13 : (sc / 10 % 10) < 10 := Nat.mod_lt _ (by norm_num)
  have e14 : (sc % 10) < 10 := Nat.mod_lt _ (by norm_num)
  show parseIsoDateTime ⟨pad4 y ++ '-' :: (pad2 m ++ '-' :: (pad2 d ++
    'T' :: (pad2 hr ++ ':' :: (pad2 mi ++ ':' :: pad2 sc))))⟩ = _
  simp only [parseIsoDateTime, pad4, pad2, String.toList, List.cons_append, List.nil_append]
  simp only [digitChar_isDigit e1, digitChar_isDigit e2, digitChar_isDigit e3,
    digitChar_isDigit e4, digitChar_isDigit e5, digitChar_isDigit e6,
    digitChar_isDigit e7, digitChar_isDigit e8, digitChar_isDigit e9,
    digitChar_isDigit e10, digitChar_isDigit e11, digitChar_isDigit e12,
    digitChar_isDigit e13, digitChar_isDigit e14,
    digitVal_digitChar e1, digitVal_digitChar e2, digitVal_digitChar e3,
    digitVal_digitChar e4, digitVal_digitChar e5, digitVal_digitChar e6,
    digitVal_digitChar e7, digitVal_digitChar e8, digitVal_digitChar e9,
    digitVal_digitChar e10, digitVal_digitChar e11, digitVal_digitChar e12,
    digitVal_digitChar e13, digitVal_digitChar e14]
  have hmlt : m < 100 := by omega
  have hdlt : d < 100 := by
    have : daysInMonth y m ≤ 31 := by
      unfold daysInMonth
      split_ifs <;> omega
    omega
  have hy := digitsRecomb4 y hylt
  have hm := digitsRecomb2 m hmlt
  have hd := digitsRecomb2 d hdlt
  have hhr := digitsRecomb2 hr (by omega)
  have hmi := digitsRecomb2 mi (by omega)
  have hsc := digitsRecomb2 sc (by omega)
  simp [hy, hm, hd, hhr, hmi, hsc, h, hh, hn, hc]

-- ===========================================================================
-- regex_analyzer.py
-- ===========================================================================

namespace RA

/-- `ExtractedEvent` dataclass of `regex_analyzer.py` (confidence over `ℚ`). -/
structure ExtractedEvent where
  id : String := ""
  event_type : String := "unknown"
  date : Option Date := none
  date_str : String := ""
  time_start : String := ""
  time_end : String := ""
  location : String := ""
  address : String := ""
  organizer : String := ""
  contact_phone : String := ""
  skill_level : String := ""
  age_group : String := ""
  play_format : String := ""
  play_duration : String := ""
  teams_count : String := ""
  entry_fee : String := ""
  has_trophies : Bool := false
  status : String := "open"
  raw_message : String := ""
  sender : String := ""
  message_date : Option DateTime := none
  confidence : ℚ := 0
deriving DecidableEq

/-- `WhatsAppMessage` dataclass. -/
structure WhatsAppMessage where
  timestamp : DateTime
  sender : String
  content : String
  has_media : Bool := false
deriving DecidableEq

/-- Groups of one match of a numeric/month-name date pattern
(`DATES[0..3]`): `matched` is `match.group()`, `g1`/`g2`/`g3` are the
captured day, month (digits or month name) and optional year. -/
structure DateGroups where
  matched : String
  g1 : String
  g2 : String
  g3 : Option String
deriving DecidableEq

/-- Groups of a relative-date match (`DATES[4]`). -/
structure RelativeGroups where
  matched : String
  modifier : String
  weekday : String
deriving DecidableEq

/-- Groups of the time-range pattern `TIMES[0]`. -/
structure TimeRangeGroups where
  h1 : String
  m1 : String
  h2 : String
  m2 : String
deriving DecidableEq

/-- Groups of a single-time pattern (`TIMES[1..4]`): hour plus optional
minute capture. -/
structure HourMinGroups where
  hour : String
  minute : Option String
deriving DecidableEq

/-- Groups of the street/postal-code pattern `LOCATIONS[4]`. -/
structure StreetGroups where
  street : String
  plz : String
  city : Option String
deriving DecidableEq

/-- Groups of the `Spielort ist …` pattern `LOCATIONS[2]`. -/
structure HallCityGroups where
  hall : Option String
  city : Option String
deriving DecidableEq

/-- Groups of the `SIGNATURE` pattern (name, club). -/
structure SignatureGroups where
  name : Option String
  club : Option String
deriving DecidableEq

/-- Results of every `re` call `_extract_event` performs on one message.
Each field records the match (with its captured groups) of the named
pattern of `GermanFootballPatterns` on the message text, or `none` when
the pattern does not match; list fields record per-line scans in the
order the source iterates them.  These are inputs of the embedding: the
regex engine itself is not modelled, everything done with its results is. -/
structure RegexMatches where
  typeTournament : Bool := false
  typeFriendly : Bool := false
  typeTraining : Bool := false
  date0 : Option DateGroups := none
  date1 : Option DateGroups := none
  date2 : Option DateGroups := none
  date3 : Option DateGroups := none
  dateRel : Option RelativeGroups := none
  time0 : Option TimeRangeGroups := none
  time1 : Option HourMinGroups := none
  time2 : Option HourMinGroups := none
  time3 : Option HourMinGroups := none
  time4 : Option HourMinGroups := none
  time5 : Option (String × String) := none
  time6 : Option String := none
  loc0 : Option String := none
  loc1 : Option String := none
  loc2 : Option HallCityGroups := none
  loc3 : Option String := none
  loc4 : Option StreetGroups := none
  loc5 : Option String := none
  loc6 : Option String := none
  orgLbc : Option String := none
  orgBfc : Bool := false
  orgCombo : Option String := none
  orgVon : Option String := none
  orgSig : Option SignatureGroups := none
  orgWir : Option String := none
  orgStd : Option String := none
  orgFull : Option String := none
  orgLastLines : List String := []
  skillSchwach : Bool := false
  skillMittel : Bool := false
  skillStark : Bool := false
  age0 : Option String := none
  age1 : Option String := none
  age2 : Option String := none
  age3 : Option String := none
  fmt0 : Option (String × String) := none
  fmt1 : Option (String × String) := none
  fmt2 : Option (String × String) := none
  fmtFunino : Bool := false
  fmt4 : Option String := none
  dur0 : Option String := none
  dur1 : Option String := none
  dur2 : Option String := none
  dur3 : Option String := none
  teams0 : Option String := none
  teams1 : Option String := none
  teams2 : Option String := none
  fee0 : Option String := none
  fee1 : Option String := none
  fee2 : Option String := none
  feeFree : Bool := false
  trophies : Bool := false
  phoneInText : Option String := none
  statusFull : Bool := false
  relevant : Bool := true
  msgHash : Int := 0
deriving DecidableEq

/-- `_extract_event_type`: first matching entry of the `EVENT_TYPES`
dict (iteration order tournament, friendly_match, training). -/
def extract_event_type (o : RegexMatches) : String × ℚ :=
  if o.typeTournament then ("tournament", 1)
  else if o.typeFriendly then ("friendly_match", 1)
  else if o.typeTraining then ("training", 1)
  else ("unknown", 0)

/-- The `MONTHS` month-name map (default 0 as in `MONTHS.get(..., 0)`). -/
def monthsMap (s : String) : Nat :=
  if s = "januar" ∨ s = "jan" then 1
  else if s = "februar" ∨ s = "feb" then 2
  else if s = "märz" ∨ s = "mär" then 3
  else if s = "april" ∨ s = "apr" then 4
  else if s = "mai" then 5
  else if s = "juni" ∨ s = "jun" then 6
  else if s = "juli" ∨ s = "jul" then 7
  else if s = "august" ∨ s = "aug" then 8
  else if s = "september" ∨ s = "sep" then 9
  else if s = "oktober" ∨ s = "okt" then 10
  else if s = "november" ∨ s = "nov" then 11
  else if s = "dezember" ∨ s = "dez" then 12
  else 0

/-- The `WEEKDAYS` map. -/
def weekdaysMap (s : String) : Option Nat :=
  if s = "montag" then some 0
  else if s = "dienstag" then some 1
  else if s = "mittwoch" then some 2
  else if s = "donnerstag" then some 3
  else if s = "freitag" then some 4
  else if s = "samstag" then some 5
  else if s = "sonntag" then some 6
  else none

/-- Body of the per-pattern attempt inside `_extract_date`'s loop over
`DATES[:4]`: day/month/year extraction with the month-name lookup, the
two-digit-year fixup, the next-year inference for yearless dates, and the
`date(...)` validity gate (`ValueError` ⇒ try the next pattern). -/
def tryDateGroups (msgY msgM : Nat) (g : DateGroups) : Option (Date × String) :=
  let day := strNat g.g1
  let month := if isDigitStr g.g2 then strNat g.g2 else monthsMap (germanLower g.g2)
  if month = 0 then none
  else
    let year :=
      match g.g3 with
      | some ys => let n := strNat ys; if n < 100 then n + 2000 else n
      | none => if month < msgM then msgY + 1 else msgY
    if validDate year month day then some (⟨year, month, day⟩, g.matched) else none

/-- `_extract_date`. -/
def extract_date (msgDate : DateTime) (o : RegexMatches) : Option Date × String × ℚ :=
  match (o.date0.bind (tryDateGroups msgDate.year msgDate.month)) with
  | some (d, s) => (some d, s, 1)
  | none =>
  match (o.date1.bind (tryDateGroups msgDate.year msgDate.month)) with
  | some (d, s) => (some d, s, 1)
  | none =>
  match (o.date2.bind (tryDateGroups msgDate.year msgDate.month)) with
  | some (d, s) => (some d, s, 1)
  | none =>
  match (o.date3.bind (tryDateGroups msgDate.year msgDate.month)) with
  | some (d, s) => (some d, s, 1)
  | none =>
  match o.dateRel with
  | some r =>
    match weekdaysMap (germanLower r.weekday) with
    | some wd =>
      let cur := dateWeekday ⟨msgDate.year, msgDate.month, msgDate.day⟩
      let daysAhead : Int := (wd : Int) - (cur : Int)
      let mods := germanLower r.modifier
      let daysAhead :=
        if ctns mods "nächst" ∨ ctns mods "kommend" then
          if daysAhead ≤ 0 then daysAhead + 7 else daysAhead
        else
          if daysAhead < 0 then daysAhead + 7 else daysAhead
      (some (addDays ⟨msgDate.year, msgDate.month, msgDate.day⟩ daysAhead.toNat),
        r.matched, 0.7)
    | none => (none, "", 0)
  | none => (none, "", 0)

/-- `_extract_time` after the failed/absent range pattern: the
Beginn/Ende, clock-emoji, `ab`, and bare `Uhr` fallbacks. -/
def extract_time_rest (o : RegexMatches) : String × String × ℚ :=
  let start_time :=
    match o.time1 with
    | some g => g.hour ++ ":" ++ (match g.minute with | some mn => mn | none => "00")
    | none => ""
  let end_time :=
    match o.time2 with
    | some g => g.hour ++ ":" ++ (match g.minute with | some mn => mn | none => "00")
    | none => ""
  if start_time ≠ "" then
    (start_time, end_time, if end_time ≠ "" then 0.9 else 0.8)
  else
    match o.time3 with
    | some g => (g.hour ++ ":" ++ (match g.minute with | some mn => mn | none => "00"), "", 0.7)
    | none =>
    match o.time4 with
    | some g => (g.hour ++ ":" ++ (match g.minute with | some mn => mn | none => "00"), "", 0.7)
    | none =>
    match o.time5 with
    | some (h, mn) => (h ++ ":" ++ (if mn ≠ "" then mn else "00"), "", 0.6)
    | none =>
    match o.time6 with
    | some h => (h ++ ":" ++ "00", "", 0.6)
    | none => ("", "", 0)

/-- `_extract_time`: the `TIMES[0]` range pattern with its explicit
0–23 hour gate, falling through to `extract_time_rest` otherwise. -/
def extract_time (o : RegexMatches) : String × String × ℚ :=
  match o.time0 with
  | some g =>
    if strNat g.h1 ≤ 23 ∧ strNat g.h2 ≤ 23 then
      (g.h1 ++ ":" ++ g.m1, g.h2 ++ ":" ++ g.m2, 1)
    else extract_time_rest o
  | none => extract_time_rest o

/-- Seventh branch of `_extract_location` (`bei uns in …`). -/
def extract_location_rest7 (o : RegexMatches) : String × String × ℚ :=
  match o.loc6 with
  | some g => (g.pyStrip, "", 0.6)
  | none => ("", "", 0)

/-- Sixth branch of `_extract_location` (`Spielort: …`). -/
def extract_location_rest6 (o : RegexMatches) : String × String × ℚ :=
  match o.loc5 with
  | some g =>
    let location := g.pyStrip
    if location.length > 3 then (location, "", 0.7) else extract_location_rest7 o
  | none => extract_location_rest7 o

/-- Fifth branch of `_extract_location` (street + postal code + city). -/
def extract_location_rest5 (o : RegexMatches) : String × String × ℚ :=
  match o.loc4 with
  | some st =>
    let street := st.street.pyStrip
    let city := match st.city with | some c => c.pyStrip | none => ""
    let a1 := street
    let a2 := if st.plz ≠ "" then a1 ++ ", " ++ st.plz else a1
    let address := if city ≠ "" then a2 ++ " " ++ city else a2
    let location := if city ≠ "" then city else street
    (location, address, 0.95)
  | none => extract_location_rest6 o

/-- Fourth branch of `_extract_location` (bare street address). -/
def extract_location_rest4 (o : RegexMatches) : String × String × ℚ :=
  match o.loc3 with
  | some g =>
    let address := collapseWs g.pyStrip
    if address.length > 5 then (address, address, 0.8) else extract_location_rest5 o
  | none => extract_location_rest5 o

/-- Third branch of `_extract_location` (`Spielort ist die Halle X in Y`). -/
def extract_location_rest3 (o : RegexMatches) : String × String × ℚ :=
  match o.loc2 with
  | some g =>
    let hall0 := match g.hall with | some h => h.pyStrip | none => ""
    let hall := (collapseWs hall0).pyStrip
    let city := match g.city with | some c => c.pyStrip | none => ""
    let location := if city ≠ "" then hall ++ " (" ++ city ++ ")" else hall
    if location.length > 5 then (location, "", 0.85) else extract_location_rest4 o
  | none => extract_location_rest4 o

/-- Second branch of `_extract_location` (pin-emoji marker). -/
def extract_location_rest (o : RegexMatches) : String × String × ℚ :=
  match o.loc1 with
  | some g =>
    let location := collapseWs g.pyStrip
    if location.length > 5 then (location, "", 0.85) else extract_location_rest3 o
  | none => extract_location_rest3 o

/-- `_extract_location`: the hall/school pattern first (opportunistically
paired with the street+postal-code match for the address), then the
remaining branches. -/
def extract_location (o : RegexMatches) : String × String × ℚ :=
  let streetAddress :=
    match o.loc4 with
    | some st =>
      let a1 := st.street.pyStrip
      let a2 := if st.plz ≠ "" then a1 ++ ", " ++ st.plz else a1
      (match st.city with
       | some c => if c ≠ "" then a2 ++ " " ++ c else a2
       | none => a2)
    | none => ""
  match o.loc0 with
  | some g =>
    let location := collapseWs g.pyStrip
    if location.length > 8 then
      (location, streetAddress, if streetAddress ≠ "" then 0.9 else 0.85)
    else extract_location_rest o
  | none => extract_location_rest o

/-- Characters of the emoji classes `[⚽️🏆✌️]` used by the organizer
clean-ups (the class contains the soccer ball, trophy and victory-hand
code points plus the variation selector U+FE0F). -/
def isClubEmoji (c : Char) : Bool :=
  c == '⚽' || c == '️' || c == '🏆' || c == '✌'

/-- `re.sub(r'[⚽️🏆✌️]+$', '', s)`. -/
def stripTrailEmoji (s : String) : String :=
  ⟨(s.toList.reverse.dropWhile isClubEmoji).reverse⟩

/-- `re.sub(r'[⚽️🏆✌️,]+$', '', s)` (the `standard_pattern` variant
that also strips trailing commas). -/
def stripTrailEmojiComma (s : String) : String :=
  ⟨(s.toList.reverse.dropWhile (fun c => isClubEmoji c || c == ',')).reverse⟩

/-- `re.sub(r'[⚽️🏆✌️]+', '', s)`. -/
def stripAllEmoji (s : String) : String :=
  ⟨s.toList.filter (fun c => !(isClubEmoji c))⟩

/-- The last-five-lines fallback loop of `_extract_organizer`, given the
`CLUB_FULL` group-1 captures of the scanned lines in scan order. -/
def lastLinesScan : List String → Option (String × ℚ)
  | [] => none
  | g :: rest =>
    let club := (stripAllEmoji g.pyStrip).pyStrip
    if club.length > 5 then some (club, 0.8) else lastLinesScan rest

/-- Final fallback of `_extract_organizer`: the last-lines scan, else
no organizer. -/
def extract_organizer9 (o : RegexMatches) : String × ℚ :=
  match lastLinesScan o.orgLastLines with
  | some r => r
  | none => ("", 0)

/-- `CLUB_FULL` over the whole text. -/
def extract_organizer8 (o : RegexMatches) : String × ℚ :=
  match o.orgFull with
  | some g =>
    let club := collapseWs ((stripAllEmoji g.pyStrip).pyStrip)
    if club.length > 5 then (club, 0.85) else extract_organizer9 o
  | none => extract_organizer9 o

/-- The generic prefixed-club `standard_pattern`. -/
def extract_organizer7 (o : RegexMatches) : String × ℚ :=
  match o.orgStd with
  | some g =>
    let club := (stripTrailEmojiComma g.pyStrip).pyStrip
    if club.length > 5 then (club, 0.85) else extract_organizer8 o
  | none => extract_organizer8 o

/-- The `wir vom CLUB` pattern. -/
def extract_organizer6 (o : RegexMatches) : String × ℚ :=
  match o.orgWir with
  | some g =>
    let club := g.pyStrip
    if club.length > 5 then (club, 0.9) else extract_organizer7 o
  | none => extract_organizer7 o

/-- The `SIGNATURE` block. -/
def extract_organizer5 (o : RegexMatches) : String × ℚ :=
  match o.orgSig with
  | some g =>
    (match g.club with
     | some cl =>
       let club0 := cl.pyStrip
       if club0 ≠ "" then
         let club := collapseWs ((stripAllEmoji club0).pyStrip)
         if club.length > 5 then (club, 0.9) else extract_organizer6 o
       else extract_organizer6 o
     | none => extract_organizer6 o)
  | none => extract_organizer6 o

/-- The `die N.D von CLUB` pattern. -/
def extract_organizer4 (o : RegexMatches) : String × ℚ :=
  match o.orgVon with
  | some g =>
    let club := (stripTrailEmoji g.pyStrip).pyStrip
    if club.length > 5 then (club, 0.95) else extract_organizer5 o
  | none => extract_organizer5 o

/-- The `SC/FC/SV/BSV Borussia …` combo pattern. -/
def extract_organizer3 (o : RegexMatches) : String × ℚ :=
  match o.orgCombo with
  | some g =>
    let club := g.pyStrip
    if club.length > 8 then (club, 0.95) else extract_organizer4 o
  | none => extract_organizer4 o

/-- The `BFC Preussen` OCR pattern. -/
def extract_organizer2 (o : RegexMatches) : String × ℚ :=
  if o.orgBfc then ("BFC Preussen", 0.9) else extract_organizer3 o

/-- `_extract_organizer`: the ordered organizer cascade (LBC OCR pattern
first), each branch falling through on a failed match or rejected gate. -/
def extract_organizer (o : RegexMatches) : String × ℚ :=
  match o.orgLbc with
  | some g => ((g.pyStrip.pyReplace "|" "").pyReplace "  " " ", 0.8)
  | none => extract_organizer2 o

/-- `_extract_skill_level`: the `SKILL_LEVELS` dict scan. -/
def extract_skill_level (o : RegexMatches) : String × ℚ :=
  let found :=
    (if o.skillSchwach then ["spielschwach"] else []) ++
    (if o.skillMittel then ["mittelstark"] else []) ++
    (if o.skillStark then ["spielstark"] else [])
  match found with
  | [] => ("", 0)
  | [l] => (l, 1)
  | ls => (String.intercalate " - " ls, 0.8)

/-- `_extract_age_group`: first matching `AGE_GROUPS` pattern; the value
is the full matched text (`match.group()`). -/
def extract_age_group (o : RegexMatches) : String × ℚ :=
  match o.age0 with
  | some s => (s, 0.9)
  | none =>
  match o.age1 with
  | some s => (s, 0.9)
  | none =>
  match o.age2 with
  | some s => (s, 0.9)
  | none =>
  match o.age3 with
  | some s => (s, 0.9)
  | none => ("", 0)

/-- `_extract_play_format` after the failed/absent `N+1` pattern:
`Spielmodus: N+M`, contextual `vs`, gated standalone `vs`, Funino. -/
def extract_play_format_rest (o : RegexMatches) : String × ℚ :=
  match o.fmt4 with
  | some s => (s, 0.95)
  | none =>
  match o.fmt1 with
  | some (a, b) => (a ++ " vs " ++ b, 0.9)
  | none =>
  match o.fmt2 with
  | some (a, b) =>
    if 3 ≤ strNat a ∧ strNat a ≤ 7 ∧ 3 ≤ strNat b ∧ strNat b ≤ 7 then
      (a ++ " vs " ++ b, 0.7)
    else if o.fmtFunino then ("Funino", 1) else ("", 0)
  | none =>
    if o.fmtFunino then ("Funino", 1) else ("", 0)

/-- `_extract_play_format`: the `N+1` pattern with its 3–7 players /
exactly-one-keeper gate, falling through otherwise. -/
def extract_play_format (o : RegexMatches) : String × ℚ :=
  match o.fmt0 with
  | some (p, k) =>
    if 3 ≤ strNat p ∧ strNat p ≤ 7 ∧ strNat k = 1 then
      (p ++ "+" ++ k, 1)
    else extract_play_format_rest o
  | none => extract_play_format_rest o

/-- `_extract_duration`: first matching `DURATIONS` pattern (full match). -/
def extract_duration (o : RegexMatches) : String :=
  match o.dur0 with
  | some s => s
  | none => match o.dur1 with
    | some s => s
    | none => match o.dur2 with
      | some s => s
      | none => match o.dur3 with
        | some s => s
        | none => ""

/-- `_extract_teams_count`: first matching `TEAMS_COUNT` pattern (group 1). -/
def extract_teams_count (o : RegexMatches) : String :=
  match o.teams0 with
  | some s => s
  | none => match o.teams1 with
    | some s => s
    | none => match o.teams2 with
      | some s => s
      | none => ""

/-- The 1–500 fee gate of `_extract_entry_fee` (an out-of-range capture
falls through to the next pattern). -/
def feeCand (s : String) : Option String :=
  if 1 ≤ strNat s ∧ strNat s ≤ 500 then some (s ++ "€") else none

/-- `_extract_entry_fee`. -/
def extract_entry_fee (o : RegexMatches) : String :=
  match o.fee0.bind feeCand with
  | some r => r
  | none =>
  match o.fee1.bind feeCand with
  | some r => r
  | none =>
  match o.fee2.bind feeCand with
  | some r => r
  | none =>
    if o.feeFree then "kostenlos" else ""

/-- `re.match(r'^\+?\d', sender)`. -/
def senderIsPhone (sender : String) : Bool :=
  match sender.toList with
  | '+' :: c :: _ => c.isDigit
  | c :: _ => c.isDigit
  | [] => false

/-- `_extract_phone`. -/
def extract_phone (o : RegexMatches) (sender : String) : String :=
  if senderIsPhone sender then sender
  else match o.phoneInText with
    | some p => p
    | none => ""

/-- `_extract_status`. -/
def extract_status (o : RegexMatches) : String :=
  if o.statusFull then "full" else "open"

/-- `_generate_id` (the Python string hash of `raw_message[:50]` is an
environment input carried in the oracle, since it is salted per process). -/
def generate_id (o : RegexMatches) (e : ExtractedEvent) : String :=
  String.intercalate "-"
    [ (if e.event_type ≠ "" then e.event_type.take 3 else "unk"),
      (match e.date with | some d => isoDate d | none => "nodate"),
      ((e.organizer.take 10).pyReplace " " ""),
      lastChars 6 (toString o.msgHash) ]

/-- `_extract_event`: assembles the event and the weighted-sum confidence
(type 0.2, date 0.25, time 0.1, location 0.1, organizer 0.1, skill 0.05,
age 0.05, format 0.05), capped at 1.0. -/
def extract_event (msg : WhatsAppMessage) (o : RegexMatches) : ExtractedEvent :=
  let text := msg.content
  let et := extract_event_type o
  let dt := extract_date msg.timestamp o
  let tm := extract_time o
  let loc := extract_location o
  let org := extract_organizer o
  let skill := extract_skill_level o
  let age := extract_age_group o
  let fmt := extract_play_format o
  let confidence : ℚ :=
    et.2 * 0.2 + dt.2.2 * 0.25 + tm.2.2 * 0.1 + loc.2.2 * 0.1 + org.2 * 0.1 +
      skill.2 * 0.05 + age.2 * 0.05 + fmt.2 * 0.05
  let base : ExtractedEvent :=
    { event_type := et.1
      date := dt.1
      date_str := dt.2.1
      time_start := tm.1
      time_end := tm.2.1
      location := loc.1
      address := loc.2.1
      organizer := org.1
      skill_level := skill.1
      age_group := age.1
      play_format := fmt.1
      play_duration := extract_duration o
      teams_count := extract_teams_count o
      entry_fee := extract_entry_fee o
      has_trophies := o.trophies
      contact_phone := extract_phone o msg.sender
      status := extract_status o
      raw_message := text
      sender := msg.sender
      message_date := some msg.timestamp }
  { base with id := generate_id o base, confidence := min confidence 1 }

/-- `_is_system_message`: literal substring indicators. -/
def isSystemMessage (msg : WhatsAppMessage) : Bool :=
  [ "Messages and calls are end-to-end encrypted",
    "created group",
    "added you",
    "added +",
    "left",
    "removed",
    "changed the subject",
    "changed this group",
    "This message was deleted" ].any (fun ind => ctns msg.content ind)

/-- `extract_events`: per-message pipeline with the internal
`confidence > 0.3` floor; each message carries the results of the regex
scans over its text (`_is_event_relevant`'s search result is the
`relevant` oracle field). -/
def extract_events (msgs : List (WhatsAppMessage × RegexMatches)) : List ExtractedEvent :=
  msgs.filterMap (fun mo =>
    if isSystemMessage mo.1 then none
    else if ¬ mo.2.relevant then none
    else
      let e := extract_event mo.1 mo.2
      if e.confidence > 0.3 then some e else none)

end RA

namespace RA

/-- `str(event.date)` as interpolated into the similarity key:
ISO format for a date, `"None"` for `None`. -/
def dateRepr : Option Date → String
  | some d => isoDate d
  | none => "None"

/-- `EventDeduplicator._get_similarity_key`:
`f"{event.date}|{event.organizer[:15] if event.organizer else ''}|{event.event_type}"`. -/
def simKey (e : ExtractedEvent) : String :=
  dateRepr e.date ++ "|" ++ (if e.organizer ≠ "" then e.organizer.take 15 else "") ++
    "|" ++ e.event_type

/-- One loop iteration of `EventDeduplicator.deduplicate` on the
insertion-ordered `seen` dict (represented as an association list whose
keys are unique): replacement in place on a strictly larger confidence,
insertion at the end for a fresh key. -/
def dedupInsert (seen : List (String × ExtractedEvent)) (e : ExtractedEvent) :
    List (String × ExtractedEvent) :=
  if seen.any (fun p => p.1 = simKey e) then
    seen.map (fun p =>
      if p.1 = simKey e ∧ p.2.confidence < e.confidence then (p.1, e) else p)
  else seen ++ [(simKey e, e)]

/-- `EventDeduplicator.deduplicate`: `list(seen.values())` in first-insertion
key order. -/
def deduplicate (events : List ExtractedEvent) : List ExtractedEvent :=
  (events.foldl dedupInsert []).map Prod.snd

/-- Preference fold matching the dict update rule: keep the current value
unless the new event's confidence is strictly larger. -/
def pickBest (acc : Option ExtractedEvent) (e : ExtractedEvent) : Option ExtractedEvent :=
  match acc with
  | none => some e
  | some b => if b.confidence < e.confidence then some e else some b

/-- The first event of maximal confidence in a list (first-wins on ties). -/
def leftBest (l : List ExtractedEvent) : Option ExtractedEvent := l.foldl pickBest none

theorem leftBest_append_singleton (l : List ExtractedEvent) (e : ExtractedEvent) :
    leftBest (l ++ [e]) = pickBest (leftBest l) e := by
  simp [leftBest, List.foldl_append]

/-- Invariant tying the `seen` association list to the prefix of events
already processed. -/
def SeenInv (processed : List ExtractedEvent) (seen : List (String × ExtractedEvent)) : Prop :=
  (seen.map Prod.fst).Nodup ∧
  (∀ p ∈ seen, simKey p.2 = p.1 ∧ p.2 ∈ processed ∧
     leftBest (processed.filter (fun x => simKey x = p.1)) = some p.2) ∧
  (∀ x ∈ processed, ∃ p ∈ seen, p.1 = simKey x)

theorem seenInv_nil : SeenInv [] [] := by
  refine ⟨List.nodup_nil, ?_, ?_⟩ <;> simp

theorem seenInv_insert {ps : List ExtractedEvent} {seen : List (String × ExtractedEvent)}
    {e : ExtractedEvent} (h : SeenInv ps seen) :
    SeenInv (ps ++ [e]) (dedupInsert seen e) := by
  obtain ⟨hnd, hent, hcov⟩ := h
  by_cases hk : seen.any (fun p => p.1 = simKey e)
  · -- key already present: in-place update
    have hmem : ∃ p ∈ seen, p.1 = simKey e := by
      simpa [List.any_eq_true] using hk
    rw [dedupInsert, if_pos hk]
    refine ⟨?_, ?_, ?_⟩
    · have : (seen.map (fun p =>
          if p.1 = simKey e ∧ p.2.confidence < e.confidence then (p.1, e) else p)).map Prod.fst
          = seen.map Prod.fst := by
        rw [List.map_map]
        refine List.map_congr_left ?_
        intro p _
        by_cases hc : p.1 = simKey e ∧ p.2.confidence < e.confidence <;> simp [hc]
      rw [this]; exact hnd
    · intro p hp
      rw [List.mem_map] at hp
      obtain ⟨q, hq, hpq⟩ := hp
      obtain ⟨hkey, hq_mem, hq_best⟩ := hent q hq
      by_cases hc : q.1 = simKey e ∧ q.2.confidence < e.confidence
      · -- replaced entry
        have hp' : p = (q.1, e) := by rw [← hpq, if_pos hc]
        subst hp'
        refine ⟨hc.1.symm, by simp, ?_⟩
        have hfilt : (ps ++ [e]).filter (fun x => simKey x = q.1)
            = ps.filter (fun x => simKey x = q.1) ++ [e] := by
          rw [List.filter_append]
          simp [hc.1]
        rw [hfilt, leftBest_append_singleton, hq_best]
        simp [pickBest, hc.2]
      · have hp' : p = q := by rw [← hpq, if_neg hc]
        subst hp'
        rcases Decidable.em (p.1 = simKey e) with heq | hne
        · -- same key, but confidence not improved
          have hnc : ¬ p.2.confidence < e.confidence := fun hlt => hc ⟨heq, hlt⟩
          refine ⟨hkey, List.mem_append_left _ hq_mem, ?_⟩
          have hfilt : (ps ++ [e]).filter (fun x => simKey x = p.1)
              = ps.filter (fun x => simKey x = p.1) ++ [e] := by
            rw [List.filter_append]
            simp [heq]
          rw [hfilt, leftBest_append_singleton, hq_best]
          simp [pickBest, hnc]
        · -- different key: e is filtered out
          refine ⟨hkey, List.mem_append_left _ hq_mem, ?_⟩
          have hne' : ¬ simKey e = p.1 := fun hsym => hne hsym.symm
          have hfilt : (ps ++ [e]).filter (fun x => simKey x = p.1)
              = ps.filter (fun x => simKey x = p.1) := by
            rw [List.filter_append]
            simp [hne']
          rw [hfilt, hq_best]
    · intro x hx
      rw [List.mem_append] at hx
      rcases hx with hx | hx
      · obtain ⟨p, hp, hpk⟩ := hcov x hx
        refine ⟨(if p.1 = simKey e ∧ p.2.confidence < e.confidence then (p.1, e) else p), ?_, ?_⟩
        · exact List.mem_map_of_mem _ hp
        · split <;> exact hpk
      · obtain ⟨p, hp, hpk⟩ := hmem
        rw [List.mem_singleton] at hx
        subst hx
        refine ⟨(if p.1 = simKey x ∧ p.2.confidence < x.confidence then (p.1, x) else p), ?_, ?_⟩
        · exact List.mem_map_of_mem _ hp
        · split <;> exact hpk
  · -- fresh key: append
    have hfresh : ∀ p ∈ seen, p.1 ≠ simKey e := by
      intro p hp heq
      exact hk (by rw [List.any_eq_true]; exact ⟨p, hp, by simp [heq]⟩)
    rw [dedupInsert, if_neg hk]
    refine ⟨?_, ?_, ?_⟩
    · rw [List.map_append]
      rw [List.nodup_append]
      refine ⟨hnd, by simp, ?_⟩
      intro a ha hb
      rw [List.mem_map] at ha
      obtain ⟨p, hp, hpa⟩ := ha
      simp only [List.map_cons, List.map_nil, List.mem_singleton] at hb
      exact hfresh p hp (by rw [hpa, hb])
    · intro p hp
      rw [List.mem_append] at hp
      rcases hp with hp | hp
      · obtain ⟨hkey, hq_mem, hq_best⟩ := hent p hp
        refine ⟨hkey, List.mem_append_left _ hq_mem, ?_⟩
        have hne' : ¬ simKey e = p.1 := fun h => hfresh p hp h.symm
        have hfilt : (ps ++ [e]).filter (fun x => simKey x = p.1)
            = ps.filter (fun x => simKey x = p.1) := by
          rw [List.filter_append]
          simp [hne']
        rw [hfilt, hq_best]
      · rw [List.mem_singleton] at hp
        subst hp
        refine ⟨rfl, by simp, ?_⟩
        have hempty : ps.filter (fun x => simKey x = simKey e) = [] := by
          rw [List.filter_eq_nil_iff]
          intro x hx hkey
          obtain ⟨p, hp, hpk⟩ := hcov x hx
          have hkey' : simKey x = simKey e := of_decide_eq_true hkey
          exact hfresh p hp (by rw [hpk, hkey'])
        have hfilt : (ps ++ [e]).filter (fun x => simKey x = simKey e)
            = ps.filter (fun x => simKey x = simKey e) ++ [e] := by
          rw [List.filter_append]
          simp
        rw [hfilt, hempty]
        simp [leftBest, pickBest]
    · intro x hx
      rw [List.mem_append] at hx
      rcases hx with hx | hx
      · obtain ⟨p, hp, hpk⟩ := hcov x hx
        exact ⟨p, List.mem_append_left _ hp, hpk⟩
      · rw [List.mem_singleton] at hx
        subst hx
        exact ⟨(simKey x, x), List.mem_append_right _ (by simp), rfl⟩

theorem seenInv_foldl (L : List ExtractedEvent) :
    ∀ (ps : List ExtractedEvent) (seen : List (String × ExtractedEvent)),
      SeenInv ps seen → SeenInv (ps ++ L) (L.foldl dedupInsert seen) := by
  induction L with
  | nil => intro ps seen h; simpa using h
  | cons a t ih =>
    intro ps seen h
    have h1 := seenInv_insert (e := a) h
    have h2 := ih (ps ++ [a]) (dedupInsert seen a) h1
    simpa using h2

theorem seenInv_deduplicate (L : List ExtractedEvent) :
    SeenInv L (L.foldl dedupInsert []) := by
  have := seenInv_foldl L [] [] seenInv_nil
  simpa using this

/-- The keys of the deduplicated list are pairwise distinct. -/
theorem dedup_keys_nodup (L : List ExtractedEvent) :
    ((deduplicate L).map simKey).Nodup := by
  obtain ⟨hnd, hent, _⟩ := seenInv_deduplicate L
  have : (deduplicate L).map simKey = (L.foldl dedupInsert []).map Prod.fst := by
    unfold deduplicate
    rw [List.map_map]
    refine List.map_congr_left ?_
    intro p hp
    exact (hent p hp).1
  rw [this]; exact hnd

/-- Folding over events whose keys are fresh and pairwise distinct just
appends them. -/
theorem foldl_dedupInsert_fresh (M : List ExtractedEvent) :
    ∀ (seen : List (String × ExtractedEvent)),
      ((seen.map Prod.fst) ++ M.map simKey).Nodup →
      M.foldl dedupInsert seen = seen ++ M.map (fun e => (simKey e, e)) := by
  induction M with
  | nil => intro seen _; simp
  | cons a t ih =>
    intro seen hnd
    have hfresh : ¬ seen.any (fun p => p.1 = simKey a) = true := by
      intro hk
      rw [List.any_eq_true] at hk
      obtain ⟨p, hp, hpk⟩ := hk
      have hpk' : p.1 = simKey a := by simpa using hpk
      have hmem : simKey a ∈ seen.map Prod.fst := List.mem_map.mpr ⟨p, hp, hpk'⟩
      have hdisj := (List.nodup_append.mp hnd).2.2
      exact hdisj hmem (by simp)
    have step : dedupInsert seen a = seen ++ [(simKey a, a)] := by
      rw [dedupInsert, if_neg hfresh]
    have hnd' : ((seen ++ [(simKey a, a)]).map Prod.fst ++ t.map simKey).Nodup := by
      rw [List.map_append]
      have : seen.map Prod.fst ++ [(simKey a, a)].map Prod.fst ++ t.map simKey
          = seen.map Prod.fst ++ (simKey a :: t.map simKey) := by simp
      rw [this]
      simpa using hnd
    rw [List.foldl_cons, step, ih _ hnd']
    simp

/-- Deduplication leaves a list with pairwise-distinct keys unchanged. -/
theorem dedup_of_keys_nodup (M : List ExtractedEvent)
    (h : (M.map simKey).Nodup) : deduplicate M = M := by
  unfold deduplicate
  rw [foldl_dedupInsert_fresh M [] (by simpa using h)]
  rw [List.nil_append, List.map_map]
  exact (List.map_congr_left (fun a _ => rfl)).trans (List.map_id M)

end RA

-- ===========================================================================
-- Line scanners for the message-header patterns
-- ===========================================================================

/-- Scanner for the token `\d{1,2}:\d{2}` (greedy hour, as the regex). -/
def parseTimeTok : List Char → Option (String × List Char)
  | a :: ':' :: c :: d :: rest =>
    if a.isDigit ∧ c.isDigit ∧ d.isDigit then some (⟨[a, ':', c, d]⟩, rest) else none
  | a :: b :: ':' :: c :: d :: rest =>
    if a.isDigit ∧ b.isDigit ∧ c.isDigit ∧ d.isDigit then
      some (⟨[a, b, ':', c, d]⟩, rest)
    else none
  | _ => none

/-- Scanner for `\d{1,2}SEP\d{1,2}SEP\d{4}` where each separator is drawn
from `seps` (the `[/\.]` class, or just `/` for the unbracketed format). -/
def parseDateTok (seps : List Char) (l : List Char) : Option (String × List Char) :=
  let p1 := l.span (fun c => c.isDigit)
  match p1.2 with
  | s1 :: t1 =>
    if (p1.1.length = 1 ∨ p1.1.length = 2) ∧ s1 ∈ seps then
      let p2 := t1.span (fun c => c.isDigit)
      match p2.2 with
      | s2 :: t2 =>
        if (p2.1.length = 1 ∨ p2.1.length = 2) ∧ s2 ∈ seps then
          let p3 := t2.span (fun c => c.isDigit)
          if p3.1.length = 4 then
            some (⟨p1.1 ++ s1 :: (p2.1 ++ s2 :: p3.1)⟩, p3.2)
          else none
        else none
      | [] => none
    else none
  | [] => none

namespace RA

/-- Scanner for `MESSAGE_LINE` / `MESSAGE_LINE_ALT` of
`GermanFootballPatterns`:
`^(\d{2}SEP\d{2}SEP\d{4}),\s*(\d{2}:\d{2})\s*-\s*(.+?):\s*(.*)$` with
`SEP` the slash (main) or dot (alt) variant.  The lazy sender group is
resolved as "up to the first colon", which coincides with the regex on
every line whose sender segment is non-empty and colon-free. -/
def matchMsgLine (sep : Char) (line : String) :
    Option (String × String × String × String) :=
  match line.toList with
  | d1 :: d2 :: s1 :: m1 :: m2 :: s2 :: y1 :: y2 :: y3 :: y4 :: ',' :: rest =>
    if d1.isDigit ∧ d2.isDigit ∧ s1 = sep ∧ m1.isDigit ∧ m2.isDigit ∧ s2 = sep ∧
        y1.isDigit ∧ y2.isDigit ∧ y3.isDigit ∧ y4.isDigit then
      let rest1 := rest.dropWhile Char.isWhitespace
      match rest1 with
      | h1 :: h2 :: ':' :: n1 :: n2 :: rest2 =>
        if h1.isDigit ∧ h2.isDigit ∧ n1.isDigit ∧ n2.isDigit then
          let rest3 := rest2.dropWhile Char.isWhitespace
          match rest3 with
          | '-' :: rest4 =>
            let rest5 := rest4.dropWhile Char.isWhitespace
            let senderCs := rest5.takeWhile (fun c => c ≠ ':')
            match rest5.drop senderCs.length, senderCs with
            | ':' :: rest6, _ :: _ =>
              let rest7 := rest6.dropWhile Char.isWhitespace
              some (⟨[d1, d2, s1, m1, m2, s2, y1, y2, y3, y4]⟩,
                    ⟨[h1, h2, ':', n1, n2]⟩, ⟨senderCs⟩, ⟨rest7⟩)
            | _, _ => none
          | _ => none
        else none
      | _ => none
    else none
  | _ => none

/-- The `strptime` calls of `WhatsAppChatParser.parse_content`
(`%d/%m/%Y %H:%M` resp. `%d.%m.%Y %H:%M`); on `ValueError` the code
substitutes `datetime.now()`, passed here as `nowDT`. -/
def parse_ts (nowDT : DateTime) (dateStr timeStr : String) : DateTime :=
  match (dateStr.pyReplace "." "/").pySplit '/' with
  | [ds, ms, ys] =>
    match timeStr.pySplit ':' with
    | [hs, mins] =>
      let d := strNat ds
      let m := strNat ms
      let y := strNat ys
      let h := strNat hs
      let mi := strNat mins
      if validDate y m d ∧ h ≤ 23 ∧ mi ≤ 59 then ⟨y, m, d, h, mi, 0⟩ else nowDT
    | _ => nowDT
  | _ => nowDT

/-- `WhatsAppChatParser.parse_content`: fold over the lines with the
"current message" accumulator; non-matching lines extend the current
message, the final message is flushed at the end. -/
def parse_content (nowDT : DateTime) (content : String) : List WhatsAppMessage :=
  let step := fun (st : List WhatsAppMessage × Option WhatsAppMessage) (line : String) =>
    match (match matchMsgLine '/' line with
           | some r => some r
           | none => matchMsgLine '.' line) with
    | some (dateStr, timeStr, sender, text) =>
      let msgs1 := match st.2 with | some c => st.1 ++ [c] | none => st.1
      let ts := parse_ts nowDT dateStr timeStr
      let hm := ctns text "<Media omitted>" || ctns text "(file attached)"
      (msgs1, some ⟨ts, sender.pyStrip, text.pyStrip, hm⟩)
    | none =>
      match st.2 with
      | some c => (st.1, some { c with content := c.content ++ "\n" ++ line })
      | none => (st.1, none)
  let fin := (content.pySplit '\n').foldl step ([], none)
  match fin.2 with
  | some c => fin.1 ++ [c]
  | none => fin.1

end RA

-- ===========================================================================
-- src/src/parser.py
-- ===========================================================================

namespace Core

/-- `Message` dataclass of `src/src/parser.py`. -/
structure Message where
  timestamp : DateTime
  sender : String
  content : String
  has_media : Bool := false
  media_path : Option String := none
deriving DecidableEq

/-- Scanner for `MESSAGE_PATTERN`:
`^\[(\d{1,2}:\d{2}),\s*(\d{1,2}[/\.]\d{1,2}[/\.]\d{4})\]\s*([^:]+):\s*(.*)$`. -/
def matchBracketLine (line : String) : Option (String × String × String × String) :=
  match line.toList with
  | '[' :: rest =>
    match parseTimeTok rest with
    | some (timeStr, r1) =>
      match r1 with
      | ',' :: r2 =>
        let r3 := r2.dropWhile Char.isWhitespace
        match parseDateTok ['/', '.'] r3 with
        | some (dateStr, r4) =>
          match r4 with
          | ']' :: r5 =>
            let r6 := r5.dropWhile Char.isWhitespace
            let senderCs := r6.takeWhile (fun c => c ≠ ':')
            match r6.drop senderCs.length, senderCs with
            | ':' :: r7, _ :: _ =>
              let r8 := r7.dropWhile Char.isWhitespace
              some (timeStr, dateStr, ⟨senderCs⟩, ⟨r8⟩)
            | _, _ => none
          | _ => none
        | none => none
      | _ => none
    | none => none
  | _ => none

/-- Scanner for `MESSAGE_PATTERN_ALT`:
`^(\d{1,2}/\d{1,2}/\d{4}),\s*(\d{1,2}:\d{2})\s*-\s*([^:]+):\s*(.*)$`. -/
def matchAltLine (line : String) : Option (String × String × String × String) :=
  match parseDateTok ['/'] line.toList with
  | some (dateStr, ',' :: r2) =>
    let r3 := r2.dropWhile Char.isWhitespace
    match parseTimeTok r3 with
    | some (timeStr, r4) =>
      let r5 := r4.dropWhile Char.isWhitespace
      match r5 with
      | '-' :: r6 =>
        let r7 := r6.dropWhile Char.isWhitespace
        let senderCs := r7.takeWhile (fun c => c ≠ ':')
        match r7.drop senderCs.length, senderCs with
        | ':' :: r8, _ :: _ =>
          let r9 := r8.dropWhile Char.isWhitespace
          some (dateStr, timeStr, ⟨senderCs⟩, ⟨r9⟩)
        | _, _ => none
      | _ => none
    | none => none
  | _ => none

/-- `parse_timestamp`: normalise `.` to `/`, then try, in order, the
US `%m/%d/%Y`, EU `%d/%m/%Y` and `%Y/%m/%d` interpretations; `none`
models the `ValueError` raised when all three fail. -/
def parse_timestamp (timeStr dateStr : String) : Option DateTime :=
  match (dateStr.pyReplace "." "/").pySplit '/' with
  | [a, b, c] =>
    match timeStr.pySplit ':' with
    | [hs, ms] =>
      let h := strNat hs
      let mi := strNat ms
      if h ≤ 23 ∧ mi ≤ 59 then
        if validDate (strNat c) (strNat a) (strNat b) then
          some ⟨strNat c, strNat a, strNat b, h, mi, 0⟩
        else if validDate (strNat c) (strNat b) (strNat a) then
          some ⟨strNat c, strNat b, strNat a, h, mi, 0⟩
        else if validDate (strNat a) (strNat b) (strNat c) then
          some ⟨strNat a, strNat b, strNat c, h, mi, 0⟩
        else none
      else none
    | _ => none
  | _ => none

/-- The `MEDIA_PATTERN` search `<?(Medien|Media|Bild|image|video|audio|document).*>?`
(everything around the alternation is optional, so it matches exactly when
one of the keywords occurs, case-insensitively). -/
def mediaKeywords : List String :=
  ["medien", "media", "bild", "image", "video", "audio", "document"]

def hasMediaMatch (text : String) : Bool :=
  mediaKeywords.any (fun k => ctns (germanLower text) k)

/-- Segmentation state of `parse_export_text`.  Python appends the
*object* `current_message` to `messages` before validating the
timestamp, so an unparseable header line leaves an extra alias of the
current message in the output; `count` records how many such aliased
appends are pending, and they are materialised (with the message's
final content) when the message is flushed. -/
structure SegSt where
  done : List Message
  cur : Option Message
  count : Nat
deriving DecidableEq

def flushCur (cur : Option Message) (count : Nat) : List Message :=
  match cur with
  | some c => List.replicate (count + 1) c
  | none => []

/-- One line of `parse_export_text`. -/
def segStep (st : SegSt) (line : String) : SegSt :=
  match matchBracketLine line with
  | some (timeStr, dateStr, sender, text) =>
    (match parse_timestamp timeStr dateStr with
     | none =>
       -- `continue` after the early append of the previous message
       { st with count := st.count + (if st.cur.isSome then 1 else 0) }
     | some ts =>
       { done := st.done ++ flushCur st.cur st.count,
         cur := some ⟨ts, sender.pyStrip, text.pyStrip, hasMediaMatch text, none⟩,
         count := 0 })
  | none =>
  match matchAltLine line with
  | some (dateStr, timeStr, sender, text) =>
    (match parse_timestamp timeStr dateStr with
     | none =>
       { st with count := st.count + (if st.cur.isSome then 1 else 0) }
     | some ts =>
       { done := st.done ++ flushCur st.cur st.count,
         cur := some ⟨ts, sender.pyStrip, text.pyStrip,
                      hasMediaMatch text || ctns text "<Media omitted>", none⟩,
         count := 0 })
  | none =>
    match st.cur with
    | some c => { st with cur := some { c with content := c.content ++ "\n" ++ line } }
    | none => st

/-- `parse_export_text`. -/
def parse_export_text (content : String) : List Message :=
  let st := (content.pySplit '\n').foldl segStep ⟨[], none, 0⟩
  st.done ++ flushCur st.cur st.count

end Core

-- ===========================================================================
-- src/src/extractor.py : Event, to_dict / from_dict
-- ===========================================================================

namespace Core

/-- `Event` dataclass of `src/src/extractor.py` (`entry_fee` is a Python
float, modelled over `ℚ`; `skill_level` is an `int`). -/
structure Event where
  id : String
  event_type : String
  date : Option Date
  time_start : Option String
  time_end : Option String
  location : Option String
  maps_url : Option String := none
  skill_level : Option Int := none
  age_group : Option String := none
  organizer : Option String := none
  contact_phone : Option String := none
  contact_name : Option String := none
  status : String := "open"
  catering : Bool := false
  entry_fee : Option ℚ := none
  raw_text : String := ""
  summary : String := ""
  source_timestamp : Option DateTime := none
deriving DecidableEq

/-- The dictionary produced by `Event.to_dict`: identical fields, with
`date` and `source_timestamp` replaced by their ISO strings (or null). -/
structure EventDict where
  id : String
  event_type : String
  date : Option String
  time_start : Option String
  time_end : Option String
  location : Option String
  maps_url : Option String := none
  skill_level : Option Int := none
  age_group : Option String := none
  organizer : Option String := none
  contact_phone : Option String := none
  contact_name : Option String := none
  status : String := "open"
  catering : Bool := false
  entry_fee : Option ℚ := none
  raw_text : String := ""
  summary : String := ""
  source_timestamp : Option String := none
deriving DecidableEq

/-- `Event.to_dict`: `asdict` plus `isoformat` on the two temporal
fields when they are present. -/
def to_dict (e : Event) : EventDict :=
  { id := e.id
    event_type := e.event_type
    date := e.date.map isoDate
    time_start := e.time_start
    time_end := e.time_end
    location := e.location
    maps_url := e.maps_url
    skill_level := e.skill_level
    age_group := e.age_group
    organizer := e.organizer
    contact_phone := e.contact_phone
    contact_name := e.contact_name
    status := e.status
    catering := e.catering
    entry_fee := e.entry_fee
    raw_text := e.raw_text
    summary := e.summary
    source_timestamp := e.source_timestamp.map isoDateTime }

/-- `Event.from_dict`: `fromisoformat` on the truthy temporal fields,
then `cls(**data)`.  `none` models a raised `ValueError`; the untyped
outcome Python produces for a present-but-empty date string (the field
is left as the string `""`) is not representable in the typed record
and is also mapped to `none` — `to_dict` never produces it. -/
def from_dict (d : EventDict) : Option Event :=
  let dateVal : Option (Option Date) :=
    match d.date with
    | none => some none
    | some s => if s = "" then none else (parseIsoDate s).map some
  let tsVal : Option (Option DateTime) :=
    match d.source_timestamp with
    | none => some none
    | some s => if s = "" then none else (parseIsoDateTime s).map some
  match dateVal, tsVal with
  | some dv, some tv =>
    some
      { id := d.id
        event_type := d.event_type
        date := dv
        time_start := d.time_start
        time_end := d.time_end
        location := d.location
        maps_url := d.maps_url
        skill_level := d.skill_level
        age_group := d.age_group
        organizer := d.organizer
        contact_phone := d.contact_phone
        contact_name := d.contact_name
        status := d.status
        catering := d.catering
        entry_fee := d.entry_fee
        raw_text := d.raw_text
        summary := d.summary
        source_timestamp := tv }
  | _, _ => none

-- ===========================================================================
-- src/src/filter.py
-- ===========================================================================

/-- `FilterCriteria` dataclass. -/
structure FilterCriteria where
  date_from : Option Date := none
  date_to : Option Date := none
  min_level : Option Int := none
  max_level : Option Int := none
  age_groups : Option (List String) := none
  event_types : Option (List String) := none
  only_open : Bool := true
  location_contains : Option String := none
  organizer_contains : Option String := none
deriving DecidableEq

/-- Python truthiness of an optional int (`None` and `0` are falsy). -/
def truthyInt : Option Int → Bool
  | none => false
  | some n => n != 0

/-- Python truthiness of an optional string (`None` and `""` are falsy). -/
def truthyStr : Option String → Bool
  | none => false
  | some s => s ≠ ""

/-- Python truthiness of an optional list (`None` and `[]` are falsy). -/
def truthyList : Option (List String) → Bool
  | none => false
  | some l => l ≠ []

/-- `filter_by_date`. -/
def filter_by_date (e : Event) (date_from date_to : Option Date) : Bool :=
  match e.date with
  | none => date_from.isNone && date_to.isNone
  | some d =>
    if date_from.isSome ∧ dateLtB d (date_from.getD dateMax) then false
    else if date_to.isSome ∧ dateLtB (date_to.getD dateMax) d then false
    else true

/-- `filter_by_level` (note the Python truthiness test: a bound of `0`
counts as unset). -/
def filter_by_level (e : Event) (min_level max_level : Option Int) : Bool :=
  match e.skill_level with
  | none => true
  | some s =>
    if truthyInt min_level ∧ s < min_level.getD 0 then false
    else if truthyInt max_level ∧ max_level.getD 0 < s then false
    else true

/-- The age-group normalisation `ag.lower().replace('-', '').replace(' ', '')`. -/
def normAge (s : String) : String :=
  ((germanLower s).pyReplace "-" "").pyReplace " " ""

/-- `filter_by_age_group`. -/
def filter_by_age_group (e : Event) (age_groups : Option (List String)) : Bool :=
  if ¬ truthyList age_groups then true
  else match e.age_group with
    | none => true
    | some ag =>
      (age_groups.getD []).any (fun a =>
        ctns (normAge ag) (normAge a) || ctns (normAge a) (normAge ag))

/-- `filter_by_type`. -/
def filter_by_type (e : Event) (event_types : Option (List String)) : Bool :=
  if ¬ truthyList event_types then true
  else (event_types.getD []).any (fun t => t = e.event_type)

/-- `filter_by_status`. -/
def filter_by_status (e : Event) (only_open : Bool) : Bool :=
  if ¬ only_open then true else e.status = "open"

/-- `filter_by_location`. -/
def filter_by_location (e : Event) (location_contains : Option String) : Bool :=
  if ¬ truthyStr location_contains then true
  else match e.location with
    | none => false
    | some loc => ctns (germanLower loc) (germanLower (location_contains.getD ""))

/-- `filter_by_organizer`. -/
def filter_by_organizer (e : Event) (organizer_contains : Option String) : Bool :=
  if ¬ truthyStr organizer_contains then true
  else match e.organizer with
    | none => false
    | some org => ctns (germanLower org) (germanLower (organizer_contains.getD ""))

/-- The conjunction of the seven per-field predicates applied by
`filter_events` to one event. -/
def passesAll (c : FilterCriteria) (e : Event) : Bool :=
  filter_by_date e c.date_from c.date_to &&
  filter_by_level e c.min_level c.max_level &&
  filter_by_age_group e c.age_groups &&
  filter_by_type e c.event_types &&
  filter_by_status e c.only_open &&
  filter_by_location e c.location_contains &&
  filter_by_organizer e c.organizer_contains

/-- `filter_events`: events surviving every filter, in order. -/
def filter_events (events : List Event) (c : FilterCriteria) : List Event :=
  events.filter (passesAll c)

-- ===========================================================================
-- sort_events
-- ===========================================================================

/-- The date sort key `(e.date is None, e.date or date.max)`. -/
def dateKey (e : Event) : Bool × Date := (e.date.isNone, e.date.getD dateMax)

/-- The level sort key `(e.skill_level is None, e.skill_level or 0)`. -/
def levelKey (e : Event) : Bool × Int := (e.skill_level.isNone, e.skill_level.getD 0)

/-- Python tuple `(bool, date) ≤` (False < True, then chronological). -/
def dateKeyLe (p q : Bool × Date) : Bool :=
  (!p.1 && q.1) || (p.1 == q.1 && dateLeB p.2 q.2)

def intLeB (a b : Int) : Bool := decide (a ≤ b)

/-- Python tuple `(bool, int) ≤`. -/
def levelKeyLe (p q : Bool × Int) : Bool :=
  (!p.1 && q.1) || (p.1 == q.1 && intLeB p.2 q.2)

/-- Python string `≤` (code-point lexicographic). -/
def strLeB (a b : String) : Bool := a == b || decide (a < b)

/-- The non-strict comparison on events induced by the selected sort key. -/
def sortLe (by_ : String) (a b : Event) : Bool :=
  if by_ = "date" then dateKeyLe (dateKey a) (dateKey b)
  else if by_ = "level" then levelKeyLe (levelKey a) (levelKey b)
  else if by_ = "type" then strLeB a.event_type b.event_type
  else strLeB a.id b.id

/-- `sort_events`: Python's stable `sorted(events, key=key, reverse=reverse)`
— a stable sort on the non-strict key comparison, with the comparison
flipped when `reverse` is set (preserving stability, as CPython does). -/
def sort_events (events : List Event) (by_ : String) (reverse : Bool) : List Event :=
  if reverse then
    List.insertionSort (fun a b => sortLe by_ b a = true) events
  else
    List.insertionSort (fun a b => sortLe by_ a b = true) events

end Core

-- ===========================================================================
-- Per-extractor confidence bounds
-- ===========================================================================

namespace RA

theorem conf_bounds_type (o : RegexMatches) :
    0 ≤ (extract_event_type o).2 ∧ (extract_event_type o).2 ≤ 1 := by
  unfold extract_event_type
  split_ifs <;> norm_num

theorem conf_bounds_date (t : DateTime) (o : RegexMatches) :
    0 ≤ (extract_date t o).2.2 ∧ (extract_date t o).2.2 ≤ 1 := by
  unfold extract_date
  repeat' split
  all_goals try dsimp only
  all_goals try split_ifs
  all_goals norm_num

theorem conf_bounds_time (o : RegexMatches) :
    0 ≤ (extract_time o).2.2 ∧ (extract_time o).2.2 ≤ 1 := by
  unfold extract_time extract_time_rest
  repeat' split
  all_goals try dsimp only
  all_goals try split_ifs
  all_goals norm_num

theorem conf_bounds_loc7 (o : RegexMatches) :
    0 ≤ (extract_location_rest7 o).2.2 ∧ (extract_location_rest7 o).2.2 ≤ 1 := by
  unfold extract_location_rest7
  repeat' split
  all_goals norm_num

theorem conf_bounds_loc6 (o : RegexMatches) :
    0 ≤ (extract_location_rest6 o).2.2 ∧ (extract_location_rest6 o).2.2 ≤ 1 := by
  unfold extract_location_rest6
  repeat' split
  all_goals try dsimp only
  all_goals try split_ifs
  all_goals first
    | exact conf_bounds_loc7 o
    | norm_num

theorem conf_bounds_loc5 (o : RegexMatches) :
    0 ≤ (extract_location_rest5 o).2.2 ∧ (extract_location_rest5 o).2.2 ≤ 1 := by
  unfold extract_location_rest5
  repeat' split
  all_goals try dsimp only
  all_goals try split_ifs
  all_goals first
    | exact conf_bounds_loc6 o
    | norm_num

theorem conf_bounds_loc4 (o : RegexMatches) :
    0 ≤ (extract_location_rest4 o).2.2 ∧ (extract_location_rest4 o).2.2 ≤ 1 := by
  unfold extract_location_rest4
  repeat' split
  all_goals try dsimp only
  all_goals try split_ifs
  all_goals first
    | exact conf_bounds_loc5 o
    | norm_num

theorem conf_bounds_loc3 (o : RegexMatches) :
    0 ≤ (extract_location_rest3 o).2.2 ∧ (extract_location_rest3 o).2.2 ≤ 1 := by
  unfold extract_location_rest3
  repeat' split
  all_goals try dsimp only
  all_goals try split_ifs
  all_goals first
    | exact conf_bounds_loc4 o
    | norm_num

theorem conf_bounds_loc2 (o : RegexMatches) :
    0 ≤ (extract_location_rest o).2.2 ∧ (extract_location_rest o).2.2 ≤ 1 := by
  unfold extract_location_rest
  repeat' split
  all_goals try dsimp only
  all_goals try split_ifs
  all_goals first
    | exact conf_bounds_loc3 o
    | norm_num

theorem conf_bounds_location (o : RegexMatches) :
    0 ≤ (extract_location o).2.2 ∧ (extract_location o).2.2 ≤ 1 := by
  unfold extract_location
  repeat' split
  all_goals try dsimp only
  all_goals try split_ifs
  all_goals first
    | exact conf_bounds_loc2 o
    | norm_num

theorem lastLinesScan_bounds (l : List String) :
    ∀ r, lastLinesScan l = some r → 0 ≤ r.2 ∧ r.2 ≤ 1 := by
  induction l with
  | nil => intro r h; simp [lastLinesScan] at h
  | cons a t ih =>
    intro r h
    rw [lastLinesScan] at h
    split at h
    · injection h with h'
      subst h'
      norm_num
    · exact ih r h

theorem conf_bounds_org9 (o : RegexMatches) :
    0 ≤ (extract_organizer9 o).2 ∧ (extract_organizer9 o).2 ≤ 1 := by
  unfold extract_organizer9
  repeat' split
  all_goals first
    | (rename_i heq; exact lastLinesScan_bounds _ _ heq)
    | norm_num

theorem conf_bounds_org8 (o : RegexMatches) :
    0 ≤ (extract_organizer8 o).2 ∧ (extract_organizer8 o).2 ≤ 1 := by
  unfold extract_organizer8
  repeat' split
  all_goals try dsimp only
  all_goals try split_ifs
  all_goals first
    | exact conf_bounds_org9 o
    | norm_num

theorem conf_bounds_org7 (o : RegexMatches) :
    0 ≤ (extract_organizer7 o).2 ∧ (extract_organizer7 o).2 ≤ 1 := by
  unfold extract_organizer7
  repeat' split
  all_goals try dsimp only
  all_goals try split_ifs
  all_goals first
    | exact conf_bounds_org8 o
    | norm_num

theorem conf_bounds_org6 (o : RegexMatches) :
    0 ≤ (extract_organizer6 o).2 ∧ (extract_organizer6 o).2 ≤ 1 := by
  unfold extract_organizer6
  repeat' split
  all_goals try dsimp only
  all_goals try split_ifs
  all_goals first
    | exact conf_bounds_org7 o
    | norm_num

theorem conf_bounds_org5 (o : RegexMatches) :
    0 ≤ (extract_organizer5 o).2 ∧ (extract_organizer5 o).2 ≤ 1 := by
  unfold extract_organizer5
  repeat' split
  all_goals try dsimp only
  all_goals try split_ifs
  all_goals first
    | exact conf_bounds_org6 o
    | norm_num

theorem conf_bounds_org4 (o : RegexMatches) :
    0 ≤ (extract_organizer4 o).2 ∧ (extract_organizer4 o).2 ≤ 1 := by
  unfold extract_organizer4
  repeat' split
  all_goals try dsimp only
  all_goals try split_ifs
  all_goals first
    | exact conf_bounds_org5 o
    | norm_num

theorem conf_bounds_org3 (o : RegexMatches) :
    0 ≤ (extract_organizer3 o).2 ∧ (extract_organizer3 o).2 ≤ 1 := by
  unfold extract_organizer3
  repeat' split
  all_goals try dsimp only
  all_goals try split_ifs
  all_goals first
    | exact conf_bounds_org4 o
    | norm_num

theorem conf_bounds_org2 (o : RegexMatches) :
    0 ≤ (extract_organizer2 o).2 ∧ (extract_organizer2 o).2 ≤ 1 := by
  unfold extract_organizer2
  repeat' split
  all_goals try dsimp only
  all_goals try split_ifs
  all_goals first
    | exact conf_bounds_org3 o
    | norm_num

theorem conf_bounds_organizer (o : RegexMatches) :
    0 ≤ (extract_organizer o).2 ∧ (extract_organizer o).2 ≤ 1 := by
  unfold extract_organizer
  repeat' split
  all_goals first
    | exact conf_bounds_org2 o
    | norm_num

theorem conf_bounds_skill (o : RegexMatches) :
    0 ≤ (extract_skill_level o).2 ∧ (extract_skill_level o).2 ≤ 1 := by
  unfold extract_skill_level
  repeat' split
  all_goals try dsimp only
  all_goals try split_ifs
  all_goals norm_num

theorem conf_bounds_age (o : RegexMatches) :
    0 ≤ (extract_age_group o).2 ∧ (extract_age_group o).2 ≤ 1 := by
  unfold extract_age_group
  repeat' split
  all_goals try dsimp only
  all_goals try split_ifs
  all_goals norm_num

theorem conf_bounds_format (o : RegexMatches) :
    0 ≤ (extract_play_format o).2 ∧ (extract_play_format o).2 ≤ 1 := by
  unfold extract_play_format extract_play_format_rest
  repeat' split
  all_goals try dsimp only
  all_goals try split_ifs
  all_goals norm_num

end RA

namespace RA

/-- `_extract_event` sets `confidence = min (weighted sum) 1` — read off
the record the function builds. -/
theorem extract_event_confidence_eq (msg : WhatsAppMessage) (o : RegexMatches) :
    (extract_event msg o).confidence =
      min ((extract_event_type o).2 * 0.2 + (extract_date msg.timestamp o).2.2 * 0.25 +
        (extract_time o).2.2 * 0.1 + (extract_location o).2.2 * 0.1 +
        (extract_organizer o).2 * 0.1 + (extract_skill_level o).2 * 0.05 +
        (extract_age_group o).2 * 0.05 + (extract_play_format o).2 * 0.05) 1 := rfl

/-- C1: for every message that reaches event assembly, the aggregate
confidence of the produced `ExtractedEvent` equals the weighted sum of
the per-field match confidences with weights event_type 0.2, date 0.25,
time 0.1, location 0.1, organizer 0.1, skill_level 0.05, age_group 0.05,
play_format 0.05, capped at 1.0; consequently the confidence always lies
in [0, 0.9]. -/
theorem confidence_weighted_sum_bounds (msg : WhatsAppMessage) (o : RegexMatches) :
    (extract_event msg o).confidence
      = (extract_event_type o).2 * 0.2 + (extract_date msg.timestamp o).2.2 * 0.25 +
        (extract_time o).2.2 * 0.1 + (extract_location o).2.2 * 0.1 +
        (extract_organizer o).2 * 0.1 + (extract_skill_level o).2 * 0.05 +
        (extract_age_group o).2 * 0.05 + (extract_play_format o).2 * 0.05
    ∧ 0 ≤ (extract_event msg o).confidence
    ∧ (extract_event msg o).confidence ≤ 0.9 := by
  obtain ⟨l1, u1⟩ := conf_bounds_type o
  obtain ⟨l2, u2⟩ := conf_bounds_date msg.timestamp o
  obtain ⟨l3, u3⟩ := conf_bounds_time o
  obtain ⟨l4, u4⟩ := conf_bounds_location o
  obtain ⟨l5, u5⟩ := conf_bounds_organizer o
  obtain ⟨l6, u6⟩ := conf_bounds_skill o
  obtain ⟨l7, u7⟩ := conf_bounds_age o
  obtain ⟨l8, u8⟩ := conf_bounds_format o
  have b1 : (extract_event_type o).2 * (0.2 : ℚ) ≤ 0.2 :=
    mul_le_of_le_one_left (by norm_num) u1
  have b2 : (extract_date msg.timestamp o).2.2 * (0.25 : ℚ) ≤ 0.25 :=
    mul_le_of_le_one_left (by norm_num) u2
  have b3 : (extract_time o).2.2 * (0.1 : ℚ) ≤ 0.1 :=
    mul_le_of_le_one_left (by norm_num) u3
  have b4 : (extract_location o).2.2 * (0.1 : ℚ) ≤ 0.1 :=
    mul_le_of_le_one_left (by norm_num) u4
  have b5 : (extract_organizer o).2 * (0.1 : ℚ) ≤ 0.1 :=
    mul_le_of_le_one_left (by norm_num) u5
  have b6 : (extract_skill_level o).2 * (0.05 : ℚ) ≤ 0.05 :=
    mul_le_of_le_one_left (by norm_num) u6
  have b7 : (extract_age_group o).2 * (0.05 : ℚ) ≤ 0.05 :=
    mul_le_of_le_one_left (by norm_num) u7
  have b8 : (extract_play_format o).2 * (0.05 : ℚ) ≤ 0.05 :=
    mul_le_of_le_one_left (by norm_num) u8
  have n1 : (0 : ℚ) ≤ (extract_event_type o).2 * 0.2 := mul_nonneg l1 (by norm_num)
  have n2 : (0 : ℚ) ≤ (extract_date msg.timestamp o).2.2 * 0.25 := mul_nonneg l2 (by norm_num)
  have n3 : (0 : ℚ) ≤ (extract_time o).2.2 * 0.1 := mul_nonneg l3 (by norm_num)
  have n4 : (0 : ℚ) ≤ (extract_location o).2.2 * 0.1 := mul_nonneg l4 (by norm_num)
  have n5 : (0 : ℚ) ≤ (extract_organizer o).2 * 0.1 := mul_nonneg l5 (by norm_num)
  have n6 : (0 : ℚ) ≤ (extract_skill_level o).2 * 0.05 := mul_nonneg l6 (by norm_num)
  have n7 : (0 : ℚ) ≤ (extract_age_group o).2 * 0.05 := mul_nonneg l7 (by norm_num)
  have n8 : (0 : ℚ) ≤ (extract_play_format o).2 * 0.05 := mul_nonneg l8 (by norm_num)
  have hS : (extract_event_type o).2 * 0.2 + (extract_date msg.timestamp o).2.2 * 0.25 +
      (extract_time o).2.2 * 0.1 + (extract_location o).2.2 * 0.1 +
      (extract_organizer o).2 * 0.1 + (extract_skill_level o).2 * 0.05 +
      (extract_age_group o).2 * 0.05 + (extract_play_format o).2 * 0.05 ≤ (0.9 : ℚ) := by
    linarith
  have hS0 : (0 : ℚ) ≤ (extract_event_type o).2 * 0.2 + (extract_date msg.timestamp o).2.2 * 0.25 +
      (extract_time o).2.2 * 0.1 + (extract_location o).2.2 * 0.1 +
      (extract_organizer o).2 * 0.1 + (extract_skill_level o).2 * 0.05 +
      (extract_age_group o).2 * 0.05 + (extract_play_format o).2 * 0.05 := by
    linarith
  have hcap := extract_event_confidence_eq msg o
  rw [min_eq_left (by linarith : (extract_event_type o).2 * 0.2 +
    (extract_date msg.timestamp o).2.2 * 0.25 + (extract_time o).2.2 * 0.1 +
    (extract_location o).2.2 * 0.1 + (extract_organizer o).2 * 0.1 +
    (extract_skill_level o).2 * 0.05 + (extract_age_group o).2 * 0.05 +
    (extract_play_format o).2 * 0.05 ≤ (1 : ℚ))] at hcap
  refine ⟨hcap, ?_, ?_⟩
  · rw [hcap]; linarith
  · rw [hcap]; linarith

/-- C10: `extract_events` returns at most one event per input message
(it is a per-message `filterMap`), and every event it returns has
confidence strictly greater than 0.3 — the floor is applied inside the
extraction stage itself, before any caller-supplied threshold. -/
theorem extract_events_one_per_message_floor
    (msgs : List (WhatsAppMessage × RegexMatches)) :
    (extract_events msgs).length ≤ msgs.length ∧
    ∀ e ∈ extract_events msgs, 0.3 < e.confidence := by
  constructor
  · exact List.length_filterMap_le _ _
  · intro e he
    rw [extract_events, List.mem_filterMap] at he
    obtain ⟨mo, _, hmo⟩ := he
    by_cases h1 : isSystemMessage mo.1
    · rw [if_pos h1] at hmo; exact absurd hmo (by simp)
    · rw [if_neg h1] at hmo
      by_cases h2 : ¬ mo.2.relevant
      · rw [if_pos h2] at hmo; exact absurd hmo (by simp)
      · rw [if_neg h2] at hmo
        dsimp only at hmo
        split at hmo
        · rename_i h3
          cases hmo
          exact h3
        · exact absurd hmo (by simp)

end RA

namespace RA

/-- First scenario event of the dedup test: organizer without the
trailing space, confidence 0.6. -/
def borussiaA : ExtractedEvent :=
  { event_type := "friendly_match"
    date := some ⟨2026, 1, 25⟩
    organizer := "FC Borussia Berlin"
    sender := "+491112223331"
    raw_message := "Testspiel am 25.01."
    confidence := 0.6 }

/-- Second scenario event: organizer with a trailing space,
confidence 0.8. -/
def borussiaB : ExtractedEvent :=
  { event_type := "friendly_match"
    date := some ⟨2026, 1, 25⟩
    organizer := "FC Borussia Berlin "
    sender := "+491112223332"
    raw_message := "Testspiel am 25.01. (repost)"
    confidence := 0.8 }

/-- C2: deduplication groups events by the similarity key (date,
first 15 characters of the organizer as extracted, event type — joined
into the key string exactly as the source does) and within each group
retains exactly the first event of maximal confidence (`leftBest`:
highest confidence, ties first-wins); in particular two same-date
events from "FC Borussia Berlin" and "FC Borussia Berlin " (trailing
space) with confidences 0.6 and 0.8 collapse to the 0.8 one. -/
theorem dedup_groups_and_keeps_best :
    (∀ L : List ExtractedEvent,
      ((deduplicate L).map simKey).Nodup ∧
      (∀ e ∈ deduplicate L,
        e ∈ L ∧ leftBest (L.filter (fun x => simKey x = simKey e)) = some e) ∧
      (∀ x ∈ L, ∃ e ∈ deduplicate L, simKey e = simKey x))
    ∧ deduplicate [borussiaA, borussiaB] = [borussiaB] := by
  constructor
  · intro L
    obtain ⟨hnd, hent, hcov⟩ := seenInv_deduplicate L
    refine ⟨dedup_keys_nodup L, ?_, ?_⟩
    · intro e he
      rw [deduplicate, List.mem_map] at he
      obtain ⟨p, hp, hpe⟩ := he
      obtain ⟨hkey, hmem, hbest⟩ := hent p hp
      subst hpe
      refine ⟨hmem, ?_⟩
      rw [hkey]
      exact hbest
    · intro x hx
      obtain ⟨p, hp, hpk⟩ := hcov x hx
      obtain ⟨hkey, -, -⟩ := hent p hp
      exact ⟨p.2, List.mem_map_of_mem _ hp, by rw [hkey, hpk]⟩
  · have hc : (0.6 : ℚ) < 0.8 := by norm_num
    simp +decide [deduplicate, dedupInsert, borussiaA, borussiaB, hc]

/-- Witness for C2 at the concrete two-event scenario. -/
theorem dedup_groups_and_keeps_best_witness :
    borussiaB ∈ [borussiaA, borussiaB] ∧
    leftBest ([borussiaA, borussiaB].filter
      (fun x => simKey x = simKey borussiaB)) = some borussiaB := by
  have hmem : borussiaB ∈ deduplicate [borussiaA, borussiaB] := by
    rw [dedup_groups_and_keeps_best.2]
    simp
  exact (dedup_groups_and_keeps_best.1 [borussiaA, borussiaB]).2.1 borussiaB hmem

/-- C3: deduplication is idempotent — for all event lists `L`,
`dedup (dedup L) = dedup L`. -/
theorem dedup_idempotent (L : List ExtractedEvent) :
    deduplicate (deduplicate L) = deduplicate L :=
  dedup_of_keys_nodup _ (dedup_keys_nodup L)

end RA

namespace RA

/-- Player/keeper counts of a `"P+K"` play-format string. -/
def parsePlus (s : String) : Option (Nat × Nat) :=
  match s.pySplit '+' with
  | [a, b] => if isDigitStr a ∧ isDigitStr b then some (strNat a, strNat b) else none
  | _ => none

/-- The hour component of an `"HH:MM"` time string. -/
def hourOfTime (s : String) : Nat :=
  strNat ⟨s.toList.takeWhile (fun c => c ≠ ':')⟩

/-- Matches of the play-format patterns on `"Spielmodus: 9+3"`: the
`(\d)\s*\+\s*(\d)` pattern captures ("9","3"); `Spielmodus[:\s]*(\d+\s*\+\s*\d+)`
captures "9+3". -/
def pfOracle : RegexMatches :=
  { fmt0 := some ("9", "3"), fmt4 := some "9+3" }

/-- Matches of the time patterns on `"10:00-25:00 Uhr Training"`: the
range pattern `TIMES[0]` cannot match (its hour class excludes 25), and
the first matching pattern is `TIMES[5]` `(\d{1,2})[:\.](\d{2})\s*Uhr`
on `"25:00 Uhr"`. -/
def hourOracle : RegexMatches :=
  { time5 := some ("25", "00") }

/-- C4 counterexample: the claim "any play format returned has a player
count in [3,7] and a goalkeeper count of exactly 1, and any hour
occurring in a returned time value lies in [0,23]" is false — on
`"Spielmodus: 9+3"` the extractor returns the format `"9+3"` (players 9,
keepers 3) through the unvalidated `Spielmodus` pattern, and on
`"10:00-25:00 Uhr Training"` the time extractor returns `"25:00"`
(hour 25) through the unvalidated bare `Uhr` pattern. -/
theorem bounds_gate_counterexample :
    (extract_play_format pfOracle).1 = "9+3" ∧ parsePlus "9+3" = some (9, 3) ∧
    ¬ (3 ≤ 9 ∧ 9 ≤ 7 ∧ 3 = 1) ∧
    (extract_time hourOracle).1 = "25:00" ∧ hourOfTime "25:00" = 25 ∧ ¬ (25 ≤ 23) :=
  ⟨rfl, by decide, by decide, rfl, by decide, by decide⟩

/-- The 1–500 gate of `feeCand` characterised. -/
theorem feeCand_spec (os : Option String) (r : String) (h : os.bind feeCand = some r) :
    ∃ s, r = s ++ "€" ∧ 1 ≤ strNat s ∧ strNat s ≤ 500 := by
  cases os with
  | none => simp at h
  | some s =>
    simp only [Option.bind] at h
    rw [feeCand] at h
    split_ifs at h with hcond
    injection h with h'
    exact ⟨s, h'.symm, hcond.1, hcond.2⟩

/-- C4 amended: the numeric sanity bounds gate acceptance only in the
branches that implement them — the first (range) time pattern rejects
hours outside [0,23] and falls through to the remaining time patterns;
the first (`N+1`) play-format pattern rejects player counts outside
[3,7] or a goalkeeper count other than 1 and falls through to the
remaining format patterns (which, like the later time patterns, return
unvalidated captures); and every numeric entry fee returned lies in
[1,500]. -/
theorem bounds_gate_amended :
    (∀ (o : RegexMatches) (g : TimeRangeGroups), o.time0 = some g →
      ((strNat g.h1 ≤ 23 ∧ strNat g.h2 ≤ 23) →
         extract_time o = (g.h1 ++ ":" ++ g.m1, g.h2 ++ ":" ++ g.m2, 1)) ∧
      (¬ (strNat g.h1 ≤ 23 ∧ strNat g.h2 ≤ 23) →
         extract_time o = extract_time_rest o)) ∧
    (∀ (o : RegexMatches) (p k : String), o.fmt0 = some (p, k) →
      ((3 ≤ strNat p ∧ strNat p ≤ 7 ∧ strNat k = 1) →
         extract_play_format o = (p ++ "+" ++ k, 1)) ∧
      (¬ (3 ≤ strNat p ∧ strNat p ≤ 7 ∧ strNat k = 1) →
         extract_play_format o = extract_play_format_rest o)) ∧
    (∀ o : RegexMatches, extract_entry_fee o = "" ∨ extract_entry_fee o = "kostenlos" ∨
      ∃ s, extract_entry_fee o = s ++ "€" ∧ 1 ≤ strNat s ∧ strNat s ≤ 500) := by
  refine ⟨?_, ?_, ?_⟩
  · intro o g hg
    constructor
    · intro hok
      rw [extract_time, hg]
      dsimp only
      rw [if_pos hok]
    · intro hbad
      rw [extract_time, hg]
      dsimp only
      rw [if_neg hbad]
  · intro o p k hpk
    constructor
    · intro hok
      rw [extract_play_format, hpk]
      dsimp only
      rw [if_pos hok]
    · intro hbad
      rw [extract_play_format, hpk]
      dsimp only
      rw [if_neg hbad]
  · intro o
    rw [extract_entry_fee]
    split
    · rename_i r heq
      right; right
      exact feeCand_spec _ _ heq
    · split
      · rename_i r heq
        right; right
        exact feeCand_spec _ _ heq
      · split
        · rename_i r heq
          right; right
          exact feeCand_spec _ _ heq
        · split_ifs
          · right; left; rfl
          · left; rfl

/-- Oracle of a valid time range (e.g. `"10:00 - 15:00"`). -/
def rangeOracle : RegexMatches := { time0 := some ⟨"10", "00", "15", "00"⟩ }

/-- Oracle of a valid `"4+1"` play format. -/
def plusOracle : RegexMatches := { fmt0 := some ("4", "1") }

/-- Witness for the amended C4 statement at concrete oracles. -/
theorem bounds_gate_amended_witness :
    extract_time rangeOracle = ("10:00", "15:00", 1) ∧
    extract_play_format plusOracle = ("4+1", 1) :=
  ⟨(bounds_gate_amended.1 rangeOracle ⟨"10", "00", "15", "00"⟩ rfl).1 (by decide),
   (bounds_gate_amended.2.1 plusOracle "4" "1" rfl).1 (by decide)⟩

end RA

namespace RA

def scenarioContent : String :=
  "Wir suchen Gegner für Testspiel am 25.01. Niveau 5, Spielort Sporthalle Mitte, Startgeld 20€"

/-- The scenario input line. -/
def scenarioLine : String := "25/01/2026, 10:00 - +491712345678: " ++ scenarioContent

/-- The message the parser produces from `scenarioLine`. -/
def scenarioMsg : WhatsAppMessage :=
  { timestamp := ⟨2026, 1, 25, 10, 0, 0⟩
    sender := "+491712345678"
    content := scenarioContent }

/-- Pattern matches on `scenarioContent`:
* `EVENT_TYPES['friendly_match']` matches "Testspiel";
* `DATES[2]` matches "am 25.01." (day "25", month "01", no year);
  `DATES[0]`, `DATES[1]` and `DATES[3]` have no match (no third digit
  group, no slashes, no month name);
* no time pattern matches (no `Uhr`, no range, no emoji);
* of the location patterns only `LOCATIONS[5]`
  `Spielort[:\s]+([A-ZÄÖÜa-zäöüß\-]+)` matches, capturing "Sporthalle"
  (its character class contains no space, so the capture stops there);
* no organizer pattern matches (no club prefix, no signature phrase);
* no `SKILL_LEVELS` pattern matches ("Niveau 5" contains none of the
  schwach/mittel/stark keywords);
* `AGE_GROUPS[0]` `U\s*(\d{1,2})` (IGNORECASE) matches "u 5" inside
  "Niveau 5";
* no play-format, duration or teams-count pattern matches;
* `ENTRY_FEE[0..2]` all capture "20" from "Startgeld 20€", no free-fee
  keyword, no trophy/status keyword;
* the relevance pre-filter matches ("testspiel"), recorded in
  `relevant := true`; the message hash is fixed at 123456. -/
def scenarioOracle : RegexMatches :=
  { typeFriendly := true
    date2 := some ⟨"am 25.01.", "25", "01", none⟩
    loc5 := some "Sporthalle"
    age0 := some "u 5"
    fee0 := some "20"
    fee1 := some "20"
    fee2 := some "20"
    msgHash := 123456 }

/-- The event the extractor assembles from the scenario message. -/
def scenarioEvent : ExtractedEvent := extract_event scenarioMsg scenarioOracle

/-- Parsing the scenario line yields exactly `scenarioMsg`, for any
value of the `datetime.now()` fallback. -/
theorem scenario_parse_eq (now : DateTime) :
    parse_content now scenarioLine = [scenarioMsg] := rfl

theorem scenario_confidence_eq :
    scenarioEvent.confidence
      = min ((1 : ℚ) * 0.2 + 1 * 0.25 + 0 * 0.1 + 0.7 * 0.1 + 0 * 0.1 +
          0 * 0.05 + 0.9 * 0.05 + 0 * 0.05) 1 := rfl

theorem scenario_floor : (0.3 : ℚ) < scenarioEvent.confidence := by
  rw [scenario_confidence_eq, min_eq_left (by norm_num)]
  norm_num

/-- Extraction over the parsed scenario message yields exactly
`scenarioEvent`. -/
theorem scenario_events_eq :
    extract_events [(scenarioMsg, scenarioOracle)] = [scenarioEvent] := by
  have hf : (if isSystemMessage scenarioMsg then none
      else if ¬ scenarioOracle.relevant then none
      else
        let e := extract_event scenarioMsg scenarioOracle
        if e.confidence > 0.3 then some e else none) = some scenarioEvent := by
    rw [if_neg (by decide : ¬ isSystemMessage scenarioMsg = true)]
    rw [if_neg (by decide : ¬¬ scenarioOracle.relevant = true)]
    dsimp only
    rw [if_pos (show (extract_event scenarioMsg scenarioOracle).confidence > 0.3 from
      scenario_floor)]
    rfl
  rw [extract_events]
  simp only [List.filterMap_cons, List.filterMap_nil]
  rw [hf]

def now0 : DateTime := ⟨2026, 1, 16, 12, 0, 0⟩

/-- C7 counterexample: on the scenario input
`"25/01/2026, 10:00 - +491712345678: Wir suchen Gegner für Testspiel am
25.01. Niveau 5, Spielort Sporthalle Mitte, Startgeld 20€"`, the
parse-then-extract pipeline produces exactly one event, but its
skill_level is empty (not populated) and its location is "Sporthalle",
which does not contain "Sporthalle Mitte" — refuting the claim as
stated. -/
theorem scenario_counterexample :
    parse_content now0 scenarioLine = [scenarioMsg] ∧
    extract_events [(scenarioMsg, scenarioOracle)] = [scenarioEvent] ∧
    scenarioEvent.skill_level = "" ∧
    ctns scenarioEvent.location "Sporthalle Mitte" = false :=
  ⟨scenario_parse_eq now0, scenario_events_eq, rfl, by decide⟩

/-- C7 amended: on the scenario input the parse-then-extract pipeline
yields exactly one event with event_type `friendly_match`, date
2026-01-25, an *empty* skill_level (the numeric "Niveau 5" notation is
not recognised by the skill-level patterns), location `"Sporthalle"`
(the `Spielort` capture stops at the first space, so it does not contain
"Sporthalle Mitte"), entry_fee `"20€"`, and confidence strictly greater
than 0.4. -/
theorem scenario_amended :
    (∀ now : DateTime, parse_content now scenarioLine = [scenarioMsg]) ∧
    extract_events [(scenarioMsg, scenarioOracle)] = [scenarioEvent] ∧
    scenarioEvent.event_type = "friendly_match" ∧
    scenarioEvent.date = some ⟨2026, 1, 25⟩ ∧
    scenarioEvent.skill_level = "" ∧
    scenarioEvent.location = "Sporthalle" ∧
    scenarioEvent.entry_fee = "20€" ∧
    (0.4 : ℚ) < scenarioEvent.confidence := by
  refine ⟨scenario_parse_eq, scenario_events_eq, rfl, rfl, rfl, rfl, rfl, ?_⟩
  rw [scenario_confidence_eq, min_eq_left (by norm_num)]
  norm_num

/-- Witness for C10 at the scenario input: the event observed at the
extractor's output indeed has confidence above the 0.3 floor. -/
theorem extract_events_floor_witness :
    (0.3 : ℚ) < scenarioEvent.confidence := by
  have hmem : scenarioEvent ∈ extract_events [(scenarioMsg, scenarioOracle)] := by
    rw [scenario_events_eq]
    exact List.mem_singleton_self _
  exact (extract_events_one_per_message_floor [(scenarioMsg, scenarioOracle)]).2
    scenarioEvent hmem

end RA

namespace Core

/-- C6: for all event lists L and criteria C, `filter_events L C` is a
subset of L whose members are exactly the events satisfying all seven
per-field predicates; a predicate whose criterion is unset always
passes; a date-absent event passes the date filter exactly when both
bounds are unset; and skill-level or age-group absence always passes
those filters regardless of the criteria. -/
theorem filter_conjunction (L : List Event) (c : FilterCriteria) :
    (∀ e ∈ filter_events L c, e ∈ L) ∧
    (∀ e : Event, e ∈ filter_events L c ↔ e ∈ L ∧
      filter_by_date e c.date_from c.date_to = true ∧
      filter_by_level e c.min_level c.max_level = true ∧
      filter_by_age_group e c.age_groups = true ∧
      filter_by_type e c.event_types = true ∧
      filter_by_status e c.only_open = true ∧
      filter_by_location e c.location_contains = true ∧
      filter_by_organizer e c.organizer_contains = true) ∧
    (∀ e : Event, e.date = none →
      (filter_by_date e c.date_from c.date_to = true ↔
        c.date_from = none ∧ c.date_to = none)) ∧
    (∀ e : Event, e.skill_level = none →
      filter_by_level e c.min_level c.max_level = true) ∧
    (∀ e : Event, e.age_group = none → filter_by_age_group e c.age_groups = true) ∧
    (c.date_from = none ∧ c.date_to = none →
      ∀ e : Event, filter_by_date e c.date_from c.date_to = true) ∧
    (c.min_level = none ∧ c.max_level = none →
      ∀ e : Event, filter_by_level e c.min_level c.max_level = true) ∧
    (c.age_groups = none → ∀ e : Event, filter_by_age_group e c.age_groups = true) ∧
    (c.event_types = none → ∀ e : Event, filter_by_type e c.event_types = true) ∧
    (c.location_contains = none →
      ∀ e : Event, filter_by_location e c.location_contains = true) ∧
    (c.organizer_contains = none →
      ∀ e : Event, filter_by_organizer e c.organizer_contains = true) := by
  refine ⟨?_, ?_, ?_, ?_, ?_, ?_, ?_, ?_, ?_, ?_, ?_⟩
  · intro e he
    exact (List.mem_filter.mp he).1
  · intro e
    rw [filter_events, List.mem_filter, passesAll]
    simp [Bool.and_eq_true, and_assoc]
  · intro e he
    rw [filter_by_date, he]
    simp [Option.isNone_iff_eq_none]
  · intro e he
    rw [filter_by_level, he]
  · intro e he
    rw [filter_by_age_group]
    split_ifs with h
    · rw [he]
    · rfl
  · rintro ⟨h1, h2⟩ e
    rw [filter_by_date]
    cases he : e.date with
    | none => simp [h1, h2]
    | some d => simp [h1, h2]
  · rintro ⟨h1, h2⟩ e
    rw [filter_by_level]
    cases he : e.skill_level with
    | none => rfl
    | some s => simp [h1, h2, truthyInt]
  · intro h e
    rw [filter_by_age_group]
    simp [h, truthyList]
  · intro h e
    rw [filter_by_type]
    simp [h, truthyList]
  · intro h e
    rw [filter_by_location]
    simp [h, truthyStr]
  · intro h e
    rw [filter_by_organizer]
    simp [h, truthyStr]

/-- A concrete open tournament used by the filter witness. -/
def witnessEvent : Event :=
  { id := "e1"
    event_type := "tournament"
    date := some ⟨2026, 1, 25⟩
    time_start := some "09:00"
    time_end := some "14:00"
    location := some "Berlin" }

/-- Witness for C6: the default criteria keep the witness event, and the
kept event is a member of the input list. -/
theorem filter_conjunction_witness : witnessEvent ∈ [witnessEvent] :=
  (filter_conjunction [witnessEvent] {}).1 witnessEvent (by decide)

def badExport : String :=
  "[13:00, 1/16/2026] Anna: hello\n[13:05, 13/13/2026] Bob: broken\n[13:10, 1/16/2026] Cara: world"

def goodExport : String :=
  "[13:00, 1/16/2026] Anna: hello\n[13:10, 1/16/2026] Cara: world"

def msgAnna : Message :=
  { timestamp := ⟨2026, 1, 16, 13, 0, 0⟩, sender := "Anna", content := "hello" }

def msgCara : Message :=
  { timestamp := ⟨2026, 1, 16, 13, 10, 0⟩, sender := "Cara", content := "world" }

/-- C8 (code bug): a header-shaped line whose date parses under neither
the US nor the EU interpretation is itself dropped, but the output is
*not* the same as if the line were absent — `parse_export_text` appends
the previous message to the output *before* validating the timestamp,
so the message preceding the bad line is emitted twice ("Anna" appears
twice in the first export), whereas the same export without the bad
line yields it once. -/
theorem parse_bad_date_duplicates_previous :
    parse_export_text badExport = [msgAnna, msgAnna, msgCara] ∧
    parse_export_text goodExport = [msgAnna, msgCara] :=
  ⟨rfl, rfl⟩

end Core

namespace Core

theorem dateLeB_total (a b : Date) : dateLeB a b = true ∨ dateLeB b a = true := by
  obtain ⟨y1, m1, d1⟩ := a
  obtain ⟨y2, m2, d2⟩ := b
  simp only [dateLeB, dateLtB, Bool.or_eq_true, decide_eq_true_eq, beq_iff_eq,
    Date.mk.injEq]
  omega

theorem dateLeB_trans (a b c : Date) (h1 : dateLeB a b = true) (h2 : dateLeB b c = true) :
    dateLeB a c = true := by
  obtain ⟨y1, m1, d1⟩ := a
  obtain ⟨y2, m2, d2⟩ := b
  obtain ⟨y3, m3, d3⟩ := c
  simp only [dateLeB, dateLtB, Bool.or_eq_true, decide_eq_true_eq, beq_iff_eq,
    Date.mk.injEq] at h1 h2 ⊢
  omega

/-- The ascending date ordering used by `sort_events … "date" false`. -/
def dateRel (a b : Event) : Prop := sortLe "date" a b = true

instance : DecidableRel dateRel := fun a b => instDecidableEqBool _ _

theorem dateRel_iff (a b : Event) : dateRel a b ↔ dateKeyLe (dateKey a) (dateKey b) = true := by
  rw [dateRel, sortLe, if_pos rfl]

instance : IsTotal Event dateRel := by
  constructor
  intro a b
  rw [dateRel_iff, dateRel_iff]
  rcases ha : (dateKey a).1 with _ | _ <;> rcases hb : (dateKey b).1 with _ | _ <;>
    simp [dateKeyLe, ha, hb] <;>
    rcases dateLeB_total (dateKey a).2 (dateKey b).2 with h | h <;> simp [h]

instance : IsTrans Event dateRel := by
  constructor
  intro a b c hab hbc
  rw [dateRel_iff] at hab hbc ⊢
  rcases ha : (dateKey a).1 with _ | _ <;> rcases hb : (dateKey b).1 with _ | _ <;>
    rcases hc : (dateKey c).1 with _ | _ <;>
    simp_all [dateKeyLe] <;>
    exact dateLeB_trans _ _ _ hab hbc

theorem dateKeyLe_none_forces {x : Date} {q : Bool × Date}
    (h : dateKeyLe (true, x) q = true) : q.1 = true := by
  rcases q with ⟨b, d⟩
  cases b
  · simp [dateKeyLe] at h
  · rfl

/-- C5 amended: when `reverse` is false, `sort_events … "date"` places
every event whose date is absent after every event with a concrete
date — once a dateless event appears, all later events are dateless. -/
theorem sort_date_nulls_last_forward (L : List Event) (i j : Nat)
    (hi : i < (sort_events L "date" false).length)
    (hj : j < (sort_events L "date" false).length) (hij : i < j)
    (hnone : ((sort_events L "date" false).get ⟨i, hi⟩).date = none) :
    ((sort_events L "date" false).get ⟨j, hj⟩).date = none := by
  have hs : List.Pairwise dateRel (sort_events L "date" false) :=
    List.sorted_insertionSort dateRel L
  have hrel := List.pairwise_iff_get.mp hs ⟨i, hi⟩ ⟨j, hj⟩ hij
  rw [dateRel_iff] at hrel
  have hkey : dateKey ((sort_events L "date" false).get ⟨i, hi⟩)
      = (true, dateMax) := by
    rw [dateKey, hnone]
    rfl
  rw [hkey] at hrel
  have h2 := dateKeyLe_none_forces hrel
  simp only [dateKey] at h2
  exact Option.isNone_iff_eq_none.mp h2

/-- A dated event for the sort scenario. -/
def eDated : Event :=
  { id := "d"
    event_type := "tournament"
    date := some ⟨2026, 1, 25⟩
    time_start := none
    time_end := none
    location := none }

/-- A dateless event for the sort scenario. -/
def eNoDate : Event :=
  { id := "n"
    event_type := "tournament"
    date := none
    time_start := none
    time_end := none
    location := none }

/-- C5 counterexample: sorting by date with `reverse = True` puts the
dateless event *first* — the `(is-null, value)` key tuple is flipped
along with everything else, so nulls do not sort last regardless of the
`reverse` flag. -/
theorem sort_reverse_nulls_first :
    sort_events [eDated, eNoDate] "date" true = [eNoDate, eDated] ∧
    eNoDate.date = none ∧ eDated.date = some ⟨2026, 1, 25⟩ :=
  ⟨by decide, rfl, rfl⟩

/-- Witness for the amended C5 statement at a concrete sorted list. -/
theorem sort_date_nulls_last_forward_witness :
    ((sort_events [eNoDate, eNoDate] "date" false).get ⟨1, by decide⟩).date = none :=
  sort_date_nulls_last_forward [eNoDate, eNoDate] 0 1 (by decide) (by decide)
    (by decide) rfl

end Core

namespace Core

theorem isoDate_ne_empty (d : Date) : isoDate d ≠ "" := by
  intro h
  have := congrArg String.data h
  simp [isoDate, pad4, pad2] at this

theorem isoDateTime_ne_empty (t : DateTime) : isoDateTime t ≠ "" := by
  intro h
  have := congrArg String.data h
  simp [isoDateTime, pad4, pad2] at this

/-- C9: serialization round-trips — for every valid event record,
deserializing (`from_dict`) the serialization (`to_dict`) yields the
record back field for field, including `none` versus populated optional
fields, with the date serialized as an ISO-8601 date string and the
source timestamp as an ISO-8601 datetime string. -/
theorem to_from_roundtrip (e : Event)
    (hd : ∀ d ∈ e.date, validDate d.year d.month d.day = true)
    (ht : ∀ t ∈ e.source_timestamp, validDate t.year t.month t.day = true ∧
      t.hour ≤ 23 ∧ t.minute ≤ 59 ∧ t.second ≤ 59) :
    from_dict (to_dict e) = some e ∧
    (to_dict e).date = e.date.map isoDate ∧
    (to_dict e).source_timestamp = e.source_timestamp.map isoDateTime := by
  refine ⟨?_, rfl, rfl⟩
  obtain ⟨eid, et, dt, t1, t2, loc, mu, sl, ag, org, cp, cn, st, ca, ef, rt, su, sts⟩ := e
  simp only [to_dict, from_dict] at *
  cases dt with
  | none =>
    cases sts with
    | none => simp
    | some t =>
      obtain ⟨ty, tm, td, th, tn, tc⟩ := t
      have hts := ht ⟨ty, tm, td, th, tn, tc⟩ (by simp)
      have hne : ¬ isoDateTime ⟨ty, tm, td, th, tn, tc⟩ = "" :=
        isoDateTime_ne_empty ⟨ty, tm, td, th, tn, tc⟩
      simp [hne,
        parseIsoDateTime_isoDateTime ty tm td th tn tc hts.1 hts.2.1 hts.2.2.1 hts.2.2.2]
  | some d =>
    obtain ⟨dy, dm, dd⟩ := d
    have hvd := hd ⟨dy, dm, dd⟩ (by simp)
    have hdne : ¬ isoDate ⟨dy, dm, dd⟩ = "" := isoDate_ne_empty ⟨dy, dm, dd⟩
    cases sts with
    | none =>
      simp [hdne, parseIsoDate_isoDate dy dm dd hvd]
    | some t =>
      obtain ⟨ty, tm, td, th, tn, tc⟩ := t
      have hts := ht ⟨ty, tm, td, th, tn, tc⟩ (by simp)
      have hne : ¬ isoDateTime ⟨ty, tm, td, th, tn, tc⟩ = "" :=
        isoDateTime_ne_empty ⟨ty, tm, td, th, tn, tc⟩
      simp [hdne, hne, parseIsoDate_isoDate dy dm dd hvd,
        parseIsoDateTime_isoDateTime ty tm td th tn tc hts.1 hts.2.1 hts.2.2.1 hts.2.2.2]

/-- A concrete event with both temporal fields populated. -/
def rtEvent : Event :=
  { id := "e2"
    event_type := "friendly_match"
    date := some ⟨2026, 1, 25⟩
    time_start := some "09:00"
    time_end := none
    location := some "Berlin"
    skill_level := some 5
    age_group := some "D-Jugend"
    organizer := some "FC Test"
    source_timestamp := some ⟨2026, 1, 16, 13, 32, 0⟩ }

/-- Witness for C9 at a concrete populated event. -/
theorem to_from_roundtrip_witness : from_dict (to_dict rtEvent) = some rtEvent :=
  (to_from_roundtrip rtEvent
    (by intro d hdm; rw [Option.mem_def] at hdm; cases hdm; decide)
    (by intro t htm; rw [Option.mem_def] at htm; cases htm; refine ⟨by decide, by decide, by decide, by decide⟩)).1

end Core
